import Mathlib

/-!
# Construction-Pulse Governance Engine — verification development

Shallow embedding of the governance core of the Construction-Pulse
repository and proofs of its specified properties.

Embedded source files:
* `server/models/AuditLog.js` (hash-chained audit ledger model)
* `server/utils/governance.js` (audit append/verify, policy lookup,
  lockout guard, pending-action workflow)
* `server/models/PendingAction.js` (quorum / expiry / duplicate helpers)
* `server/models/GovernancePolicy.js`, `server/models/SystemSettings.js`
* `server/routes/governance.js` (bootstrap / recovery flows)

Modelling conventions:
* Timestamps are `Nat` milliseconds since the epoch (`Date.now()`);
  ISO-8601 serialisations of dates are carried as `String`s.
* MongoDB collections are Lean lists; `findOne`/`findById` are `List.find?`;
  `countDocuments` is `List.length ∘ List.filter`; document updates map
  over the list.
* Mongo `ObjectId`s are `Nat`s; their `.toString()` is `toString`.
* The SHA-256 hex digest is an abstract parameter `H : String → String`
  (a 256-bit cryptographic hash is collision-resistant; theorems that
  need tamper-evidence take injectivity of `H` as a hypothesis).
* `JSON.stringify` of an already-structured `details` value is modelled by
  carrying the serialised JSON as an uninterpreted `String`.
* JavaScript exceptions (`throw new Error(msg)`) are `Except String`;
  a fallible store write is a `Bool` parameter (`true` = write succeeds).
-/

namespace ConstructionPulse

/-! ## 1. AuditLedger (`server/models/AuditLog.js`, `governance.js` §1) -/

/-- One persisted audit-ledger document (`auditLogSchema`). -/
structure AuditEntry where
  user : Option String
  action : String
  resource : String
  resourceId : Option String
  /-- serialised JSON of the Mixed `details` field -/
  details : Option String
  ip : String
  previousHash : String
  entryHash : String
  sequenceNumber : Nat
  /-- `createdAt.toISOString()` -/
  createdAt : String
deriving Repr, DecidableEq

/-- JavaScript `Array.prototype.join('|')`, as used by `computeHash`. -/
def joinPipe : List String → String
  | [] => ""
  | [x] => x
  | x :: y :: xs => x ++ "|" ++ joinPipe (y :: xs)

/-- The hash pre-image of an entry: the `payload` string built by
`auditLogSchema.methods.computeHash` (AuditLog.js lines 44-57), with the
same field order and the same JS-falsy fallbacks. -/
def hashPayload (e : AuditEntry) : String :=
  joinPipe
    [ (if e.previousHash = "" then "GENESIS" else e.previousHash)
    , e.action
    , e.resource
    , e.resourceId.getD ""
    , e.user.getD "SYSTEM"
    , e.details.getD "\x7b\x7d"
    , e.ip
    , e.createdAt
    , toString e.sequenceNumber ]

/-- `computeHash` = SHA-256 hex of the payload; `H` abstracts the digest. -/
def computeHash (H : String → String) (e : AuditEntry) : String :=
  H (hashPayload e)

/-- One step of the `findOne().sort(\x7bsequenceNumber: -1\x7d)` query:
keep the entry with the highest sequence number seen so far. -/
def lastStep (acc : Option AuditEntry) (e : AuditEntry) : Option AuditEntry :=
  match acc with
  | none => some e
  | some a => if a.sequenceNumber ≤ e.sequenceNumber then some e else some a

/-- The stored entry with the highest `sequenceNumber`
(`AuditLog.findOne().sort(\x7bsequenceNumber: -1\x7d)`). -/
def lastEntry? (l : List AuditEntry) : Option AuditEntry :=
  l.foldl lastStep none

/-- The caller-supplied arguments of one `appendAuditLog` call. -/
structure AppendReq where
  action : String
  resource : String
  details : Option String
  ip : String
  userId : Option String
  resourceId : Option String
deriving Repr, DecidableEq

/-- The entry built (and hashed) by `appendAuditLog` before saving;
`now` is the ISO serialisation of `new Date()`. -/
def mkEntry (H : String → String) (l : List AuditEntry) (r : AppendReq)
    (now : String) : AuditEntry :=
  let last := lastEntry? l
  let previousHash := match last with
    | some e => e.entryHash
    | none => "GENESIS"
  let sequenceNumber := match last with
    | some e => e.sequenceNumber + 1
    | none => 1
  let e0 : AuditEntry :=
    { user := r.userId, action := r.action, resource := r.resource
      resourceId := r.resourceId, details := r.details, ip := r.ip
      previousHash := previousHash, entryHash := ""
      sequenceNumber := sequenceNumber, createdAt := now }
  { e0 with entryHash := computeHash H e0 }

/-- The audit store write (`entry.save()`); `ok = false` models any
store failure, surfaced as a raised error. -/
def saveAuditEntry (ok : Bool) (l : List AuditEntry) (e : AuditEntry) :
    Except String (List AuditEntry) :=
  if ok then .ok (l ++ [e]) else .error "audit store write failed"

/-- `appendAuditLog` (governance.js lines 33-66): build the next chained
entry and save it; the whole body is in a `try` block whose `catch`
logs and returns `null`, so a store failure yields `none` and leaves the
ledger unchanged instead of propagating. -/
def appendAuditLog (H : String → String) (l : List AuditEntry) (r : AppendReq)
    (now : String) (saveOk : Bool) : Option AuditEntry × List AuditEntry :=
  let e := mkEntry H l r now
  match saveAuditEntry saveOk l e with
  | .ok l2 => (some e, l2)
  | .error _ => (none, l)

/-- Return shape of `verifyAuditChain`. -/
structure VerifyResult where
  valid : Bool
  brokenAt : Option Nat
  checked : Nat
deriving Repr, DecidableEq

/-- The verification walk of `verifyAuditChain` (governance.js lines
85-104): check the chain link, then the recomputed hash, stop at the
first offending entry. -/
def verifyLoop (H : String → String) :
    List AuditEntry → String → Nat → VerifyResult
  | [], _, checked => { valid := true, brokenAt := none, checked := checked }
  | e :: rest, prev, checked =>
    if e.previousHash ≠ prev then
      { valid := false, brokenAt := some e.sequenceNumber, checked := checked + 1 }
    else if e.entryHash ≠ computeHash H e then
      { valid := false, brokenAt := some e.sequenceNumber, checked := checked + 1 }
    else verifyLoop H rest e.entryHash (checked + 1)

/-- `verifyAuditChain(limit)` (governance.js lines 75-107): fetch at most
`limit` entries in ascending `sequenceNumber` order and walk them from
the `GENESIS` constant. -/
def verifyAuditChain (H : String → String) (l : List AuditEntry)
    (limit : Nat) : VerifyResult :=
  let entries :=
    (l.insertionSort (fun a b => a.sequenceNumber ≤ b.sequenceNumber)).take limit
  verifyLoop H entries "GENESIS" 0

/-- A ledger produced solely by a sequence of (successful) `appendAuditLog`
calls, each request paired with its `createdAt` ISO timestamp. -/
def buildLedger (H : String → String) (reqs : List (AppendReq × String)) :
    List AuditEntry :=
  reqs.foldl (fun l rn => (appendAuditLog H l rn.1 rn.2 true).2) []

/-! ## 2. Data model of the workflow (`GovernancePolicy.js`,
`PendingAction.js`, the governance-relevant fields of the User model) -/

/-- The governance-relevant fields of a local account record
(`User.findById(...)` reads `role` and `status`). -/
structure User where
  id : Nat
  role : String
  status : String
deriving Repr, DecidableEq

/-- `governancePolicySchema` (GovernancePolicy.js). -/
structure Policy where
  actionType : String
  description : String
  requiredApprovals : Nat
  allowedRequestors : List String
  allowedApprovers : List String
  selfApprovalAllowed : Bool
  executionDelaySecs : Nat
  reversibilityWindowSecs : Nat
  isSystemDefault : Bool
  enabled : Bool
deriving Repr, DecidableEq

/-- One element of `pendingActionSchema.approvals`. -/
structure Approval where
  userId : Nat
  approvedAt : Nat
  comment : String
deriving Repr, DecidableEq

/-- The action payload as read by the governance engine
(`payload.targetUserId` is the only field it interprets). -/
structure ActionPayload where
  targetUserId : Nat
deriving Repr, DecidableEq

/-- `pendingActionSchema` (PendingAction.js). -/
structure PendingAction where
  id : Nat
  actionType : String
  status : String
  requestedBy : Nat
  actionPayload : ActionPayload
  reason : String
  requiredApprovals : Nat
  approvals : List Approval
  vetoedBy : Option Nat
  vetoReason : Option String
  vetoedAt : Option Nat
  approvedAt : Option Nat
  scheduledExecutionAt : Option Nat
  expiresAt : Nat
  requestIp : String
deriving Repr, DecidableEq

/-- `pendingActionSchema.methods.hasQuorum` (PendingAction.js 100-102):
`approvals.length >= requiredApprovals`. -/
def PendingAction.hasQuorum (pa : PendingAction) : Bool :=
  pa.requiredApprovals ≤ pa.approvals.length

/-- `pendingActionSchema.methods.isExpired`: `new Date() > expiresAt`. -/
def PendingAction.isExpired (pa : PendingAction) (now : Nat) : Bool :=
  pa.expiresAt < now

/-- `pendingActionSchema.methods.hasUserApproved`. -/
def PendingAction.hasUserApproved (pa : PendingAction) (userId : Nat) : Bool :=
  pa.approvals.any (fun a => a.userId == userId)

/-- The MongoDB collections the workflow reads and writes. -/
structure GovState where
  users : List User
  policies : List Policy
  actions : List PendingAction
  ledger : List AuditEntry
deriving Repr, DecidableEq

/-- `User.findById(uid)`. -/
def findUser (st : GovState) (uid : Nat) : Option User :=
  st.users.find? (fun u => u.id == uid)

/-- `getPolicy` (governance.js 215-217):
`GovernancePolicy.findOne(\x7bactionType, enabled: true\x7d)`. -/
def getPolicy (st : GovState) (actionType : String) : Option Policy :=
  st.policies.find? (fun p => p.actionType == actionType && p.enabled)

/-- `User.countDocuments(\x7brole: 'admin', status: 'active'\x7d)`. -/
def activeAdminCount (st : GovState) : Nat :=
  (st.users.filter (fun u => u.role == "admin" && u.status == "active")).length

/-- `PendingAction.findById(actionId)`. -/
def findAction (st : GovState) (actionId : Nat) : Option PendingAction :=
  st.actions.find? (fun a => a.id == actionId)

/-- `pendingAction.save()` after in-place mutation: replace the stored
document(s) with this id. -/
def updateAction (st : GovState) (pa : PendingAction) : GovState :=
  { st with actions := st.actions.map (fun a => if a.id == pa.id then pa else a) }

/-! ## 3. LockoutGuard (`governance.js` §3) -/

/-- `MIN_ACTIVE_ADMINS` (governance.js line 230). -/
def MIN_ACTIVE_ADMINS : Nat := 1

/-- Return shape of `checkAdminCountSafety`; the code includes
`resultingCount` only in the active-admin branch, hence the `Option`.
The subtraction is JS number arithmetic, modelled on `Int`. -/
structure SafetyResult where
  safe : Bool
  currentCount : Nat
  wouldRemove : Nat
  resultingCount : Option Int
deriving Repr, DecidableEq

set_option linter.unusedVariables false in
/-- `checkAdminCountSafety` (governance.js lines 240-269). -/
def checkAdminCountSafety (st : GovState) (targetUserId : Nat)
    (action : String) : SafetyResult :=
  let count := activeAdminCount st
  match findUser st targetUserId with
  | none =>
      { safe := true, currentCount := count, wouldRemove := 0
        resultingCount := none }
  | some targetUser =>
      if targetUser.role == "admin" && targetUser.status == "active" then
        let resultingCount : Int := (count : Int) - 1
        { safe := decide ((MIN_ACTIVE_ADMINS : Int) ≤ resultingCount)
          currentCount := count, wouldRemove := 1
          resultingCount := some resultingCount }
      else
        { safe := true, currentCount := count, wouldRemove := 0
          resultingCount := none }

/-! ## 4. PendingActionWorkflow (`governance.js` §4) -/

/-- The admin-count-affecting action types (governance.js lines 305, 383). -/
def adminAffecting : List String :=
  ["DELETE_ADMIN", "DEMOTE_ADMIN", "DEACTIVATE_ADMIN"]

/-- `PENDING_ACTION_EXPIRY_MS` (governance.js line 280). -/
def PENDING_ACTION_EXPIRY_MS : Nat := 24 * 60 * 60 * 1000

/-- The `createPendingAction` lockout error message (governance.js 308-311). -/
def createLockoutMsg (currentCount : Nat) : String :=
  "Action blocked: would reduce active admins below minimum (" ++
    toString MIN_ACTIVE_ADMINS ++ "). Current active admins: " ++
    toString currentCount

/-- `createPendingAction` (governance.js lines 291-334). `newActionId`
models the Mongo-generated `_id`; `auditOk` models availability of the
audit store; `now` is `Date.now()` in ms. -/
def createPendingAction (H : String → String) (st : GovState)
    (actionType : String) (requestorId : Nat) (payload : ActionPayload)
    (reason ip : String) (now newActionId : Nat) (auditOk : Bool) :
    Except String PendingAction × GovState :=
  match getPolicy st actionType with
  | none => (.error ("No governance policy found for action: " ++ actionType), st)
  | some policy =>
    match findUser st requestorId with
    | none => (.error "You do not have permission to request this action", st)
    | some requestor =>
      if ¬ policy.allowedRequestors.contains requestor.role then
        (.error "You do not have permission to request this action", st)
      else if adminAffecting.contains actionType &&
          !(checkAdminCountSafety st payload.targetUserId actionType).safe then
        (.error
          (createLockoutMsg
            (checkAdminCountSafety st payload.targetUserId actionType).currentCount),
          st)
      else
        let pa : PendingAction :=
          { id := newActionId, actionType := actionType, status := "pending"
            requestedBy := requestorId, actionPayload := payload
            reason := reason, requiredApprovals := policy.requiredApprovals
            approvals := [], vetoedBy := none, vetoReason := none
            vetoedAt := none, approvedAt := none, scheduledExecutionAt := none
            expiresAt := now + PENDING_ACTION_EXPIRY_MS, requestIp := ip }
        let st1 : GovState := { st with actions := st.actions ++ [pa] }
        let audit := appendAuditLog H st1.ledger
          { action := "PENDING_ACTION_CREATED", resource := "GOVERNANCE"
            details := some ("actionType:" ++ actionType ++ ";reason:" ++ reason)
            ip := ip, userId := some (toString requestorId), resourceId := none }
          (toString now) auditOk
        (.ok pa, { st1 with ledger := audit.2 })

/-- The `approvePendingAction` lockout error message (governance.js 389-391). -/
def approveLockoutMsg : String :=
  "Approval blocked: action would now reduce active admins below minimum (" ++
    toString MIN_ACTIVE_ADMINS ++ ")"

/-- `approvePendingAction` (governance.js lines 340-428). -/
def approvePendingAction (H : String → String) (st : GovState)
    (actionId approverId : Nat) (comment ip : String) (now : Nat)
    (auditOk : Bool) : Except String PendingAction × GovState :=
  match findAction st actionId with
  | none => (.error "Pending action not found", st)
  | some pa =>
    if pa.status ≠ "pending" then
      (.error ("Cannot approve action with status: " ++ pa.status), st)
    else if pa.isExpired now then
      let pa2 := { pa with status := "expired" }
      (.error "This pending action has expired", updateAction st pa2)
    else
      match getPolicy st pa.actionType with
      | none => (.error "Governance policy not found for this action", st)
      | some policy =>
        match findUser st approverId with
        | none => (.error "You do not have permission to approve this action", st)
        | some approver =>
          if ¬ policy.allowedApprovers.contains approver.role then
            (.error "You do not have permission to approve this action", st)
          else if !policy.selfApprovalAllowed && pa.requestedBy == approverId then
            (.error "You cannot approve your own request (separation of powers)", st)
          else if pa.hasUserApproved approverId then
            (.error "You have already approved this action", st)
          else if adminAffecting.contains pa.actionType &&
              !(checkAdminCountSafety st pa.actionPayload.targetUserId
                  pa.actionType).safe then
            (.error approveLockoutMsg, st)
          else
            let newApproval : Approval :=
              { userId := approverId, approvedAt := now, comment := comment }
            let pa2 := { pa with approvals := pa.approvals ++ [newApproval] }
            let pa3 := if pa2.hasQuorum then
                { pa2 with
                  status := "approved", approvedAt := some now,
                  scheduledExecutionAt :=
                    some (now + policy.executionDelaySecs * 1000) }
              else pa2
            let st1 := updateAction st pa3
            let audit := appendAuditLog H st1.ledger
              { action := "PENDING_ACTION_APPROVED", resource := "GOVERNANCE"
                details := some ("approver:" ++ toString approverId ++
                  ";totalApprovals:" ++ toString pa3.approvals.length ++
                  ";quorumReached:" ++ toString pa3.hasQuorum ++
                  ";comment:" ++ comment)
                ip := ip, userId := some (toString approverId), resourceId := none }
              (toString now) auditOk
            (.ok pa3, { st1 with ledger := audit.2 })

/-- `vetoPendingAction` (governance.js lines 437-481). -/
def vetoPendingAction (H : String → String) (st : GovState)
    (actionId vetoerId : Nat) (reason ip : String) (now : Nat)
    (auditOk : Bool) : Except String PendingAction × GovState :=
  match findAction st actionId with
  | none => (.error "Pending action not found", st)
  | some pa =>
    if ¬ (pa.status = "pending" ∨ pa.status = "approved") then
      (.error ("Cannot veto action with status: " ++ pa.status), st)
    else if pa.status == "approved" &&
        (match pa.scheduledExecutionAt with
         | some t => t ≤ now
         | none => false) then
      (.error "Cannot veto: execution delay has passed", st)
    else
      match findUser st vetoerId with
      | none => (.error "Only administrators can veto actions", st)
      | some vetoer =>
        if vetoer.role ≠ "admin" then
          (.error "Only administrators can veto actions", st)
        else
          let pa2 := { pa with
            status := "vetoed", vetoedBy := some vetoerId,
            vetoReason := some reason, vetoedAt := some now }
          let st1 := updateAction st pa2
          let audit := appendAuditLog H st1.ledger
            { action := "PENDING_ACTION_VETOED", resource := "GOVERNANCE"
              details := some ("vetoer:" ++ toString vetoerId ++
                ";reason:" ++ reason)
              ip := ip, userId := some (toString vetoerId), resourceId := none }
            (toString now) auditOk
          (.ok pa2, { st1 with ledger := audit.2 })

/-- `cancelPendingAction` (governance.js lines 486-513). -/
def cancelPendingAction (H : String → String) (st : GovState)
    (actionId userId : Nat) (ip : String) (now : Nat) (auditOk : Bool) :
    Except String PendingAction × GovState :=
  match findAction st actionId with
  | none => (.error "Pending action not found", st)
  | some pa =>
    if pa.status ≠ "pending" then
      (.error ("Cannot cancel action with status: " ++ pa.status), st)
    else if pa.requestedBy ≠ userId then
      (.error "Only the original requestor can cancel this action", st)
    else
      let pa2 := { pa with status := "cancelled" }
      let st1 := updateAction st pa2
      let audit := appendAuditLog H st1.ledger
        { action := "PENDING_ACTION_CANCELLED", resource := "GOVERNANCE"
          details := some ("actionType:" ++ pa.actionType)
          ip := ip, userId := some (toString userId), resourceId := none }
        (toString now) auditOk
      (.ok pa2, { st1 with ledger := audit.2 })

/-! ## 5. IdentityBootstrap (`server/routes/governance.js`) -/

/-- A Firebase Auth account, as far as the bootstrap flow reads it:
stable subject id, email, display name, and the custom-claims role hint. -/
structure FirebaseUser where
  uid : Nat
  email : String
  displayName : String
  claimsRole : Option String
deriving Repr, DecidableEq

/-- The fields of the local User record touched by bootstrap/recovery. -/
structure LocalUser where
  id : Nat
  firebaseUid : Nat
  email : String
  name : String
  role : String
  status : String
  createdAt : Nat
deriving Repr, DecidableEq

/-- The SystemSettings bootstrap-lock singleton (`systemSettingsSchema`,
document `_id = 'bootstrap'`). -/
structure BootstrapLock where
  bootstrapped : Bool
  superAdminUid : Option Nat
  bootstrappedAt : Option Nat
deriving Repr, DecidableEq

/-- The stores the bootstrap/recovery flows read and write. -/
structure BootState where
  fbUsers : List FirebaseUser
  users : List LocalUser
  lock : Option BootstrapLock
  policies : List Policy
  ledger : List AuditEntry
deriving Repr, DecidableEq

/-- `DEFAULT_POLICIES` (governance.js lines 120-187); `enabled := true`
comes from the GovernancePolicy schema default applied on insert. -/
def DEFAULT_POLICIES : List Policy :=
  [ { actionType := "DELETE_ADMIN"
      description := "Delete an administrator account"
      requiredApprovals := 2, allowedRequestors := ["admin"]
      allowedApprovers := ["admin"], selfApprovalAllowed := false
      executionDelaySecs := 300, reversibilityWindowSecs := 3600
      isSystemDefault := true, enabled := true }
  , { actionType := "DEMOTE_ADMIN"
      description := "Demote an administrator to engineer"
      requiredApprovals := 2, allowedRequestors := ["admin"]
      allowedApprovers := ["admin"], selfApprovalAllowed := false
      executionDelaySecs := 300, reversibilityWindowSecs := 3600
      isSystemDefault := true, enabled := true }
  , { actionType := "DEACTIVATE_ADMIN"
      description := "Deactivate an administrator account"
      requiredApprovals := 2, allowedRequestors := ["admin"]
      allowedApprovers := ["admin"], selfApprovalAllowed := false
      executionDelaySecs := 300, reversibilityWindowSecs := 3600
      isSystemDefault := true, enabled := true }
  , { actionType := "MODIFY_POLICY"
      description := "Modify a governance policy (self-referential protection)"
      requiredApprovals := 2, allowedRequestors := ["admin"]
      allowedApprovers := ["admin"], selfApprovalAllowed := false
      executionDelaySecs := 600, reversibilityWindowSecs := 7200
      isSystemDefault := true, enabled := true }
  , { actionType := "SYSTEM_RECOVERY"
      description :=
        "Emergency system recovery - create new admin when all are disabled"
      requiredApprovals := 1, allowedRequestors := ["admin"]
      allowedApprovers := ["admin"], selfApprovalAllowed := true
      executionDelaySecs := 600, reversibilityWindowSecs := 3600
      isSystemDefault := true, enabled := true }
  , { actionType := "DISABLE_AUDIT"
      description := "Disable or modify audit logging configuration"
      requiredApprovals := 2, allowedRequestors := ["admin"]
      allowedApprovers := ["admin"], selfApprovalAllowed := false
      executionDelaySecs := 900, reversibilityWindowSecs := 0
      isSystemDefault := true, enabled := true } ]

/-- `seedDefaultPolicies` upsert step:
`findOneAndUpdate(\x7bactionType\x7d, \x7b$setOnInsert: policy\x7d, \x7bupsert: true\x7d)` —
insert only if no policy with this `actionType` exists. -/
def upsertPolicyIfAbsent (ps : List Policy) (p : Policy) : List Policy :=
  if ps.any (fun q => q.actionType == p.actionType) then ps else ps ++ [p]

/-- `seedDefaultPolicies` (governance.js lines 196-209). -/
def seedDefaultPolicies (ps : List Policy) : List Policy :=
  DEFAULT_POLICIES.foldl upsertPolicyIfAbsent ps

/-- `isSystemBootstrapped` (routes/governance.js lines 46-49):
the lock doc exists and `bootstrapped === true`. -/
def isSystemBootstrapped (st : BootState) : Bool :=
  match st.lock with
  | some d => d.bootstrapped
  | none => false

set_option linter.unusedVariables false in
/-- `resolveFirebaseUser` (routes/governance.js lines 60-78): look up by
email, create only if absent. `newUid` models the provider-assigned uid
of a freshly created account; `password` is held by the provider and not
modelled further. -/
def resolveFirebaseUser (fbUsers : List FirebaseUser)
    (email password name : String) (newUid : Nat) :
    (FirebaseUser × Bool) × List FirebaseUser :=
  match fbUsers.find? (fun u => u.email == email) with
  | some existingUser => ((existingUser, false), fbUsers)
  | none =>
    let newUser : FirebaseUser :=
      { uid := newUid, email := email, displayName := name, claimsRole := none }
    ((newUser, true), fbUsers ++ [newUser])

/-- `admin.auth().setCustomUserClaims(uid, \x7brole\x7d)`. -/
def setCustomUserClaims (fbUsers : List FirebaseUser) (uid : Nat)
    (role : String) : List FirebaseUser :=
  fbUsers.map (fun u => if u.uid == uid then { u with claimsRole := some role } else u)

/-- The `User.findOneAndUpdate(\x7bfirebaseUid\x7d, \x7b$set…, $setOnInsert…\x7d,
\x7bupsert: true\x7d)` step shared by bootstrap and recovery (routes/governance.js
lines 167-182 and 276-291). -/
def upsertAdminUser (users : List LocalUser) (fbUid : Nat)
    (email name : String) (newLocalId now : Nat) : LocalUser × List LocalUser :=
  match users.find? (fun u => u.firebaseUid == fbUid) with
  | some u =>
    let u2 := { u with
      email := email, name := name, role := "admin", status := "active" }
    (u2, users.map (fun v => if v.firebaseUid == fbUid then u2 else v))
  | none =>
    let u : LocalUser :=
      { id := newLocalId, firebaseUid := fbUid, email := email, name := name
        role := "admin", status := "active", createdAt := now }
    (u, users ++ [u])

/-- HTTP outcome of a bootstrap/recovery call. -/
structure HttpResult where
  status : Nat
  adminId : Option Nat
deriving Repr, DecidableEq

/-- `POST /bootstrap-admin` (routes/governance.js lines 132-226).
`newUid`/`newLocalId` model provider/store-assigned ids for the
freshly-created documents (unused when the documents already exist). -/
def bootstrapAdmin (H : String → String) (st : BootState)
    (email password name ip : String) (newUid newLocalId now : Nat)
    (auditOk : Bool) : HttpResult × BootState :=
  if isSystemBootstrapped st then
    let audit := appendAuditLog H st.ledger
      { action := "BOOTSTRAP_BLOCKED", resource := "GOVERNANCE"
        details := some ("reason:System already bootstrapped;email:" ++ email)
        ip := ip, userId := none, resourceId := none } (toString now) auditOk
    ({ status := 409, adminId := none }, { st with ledger := audit.2 })
  else if email = "" ∨ password = "" ∨ name = "" then
    ({ status := 400, adminId := none }, st)
  else
    let resolved := resolveFirebaseUser st.fbUsers email password name newUid
    let firebaseUser := resolved.1.1
    let fb2 := setCustomUserClaims resolved.2 firebaseUser.uid "admin"
    let upserted := upsertAdminUser st.users firebaseUser.uid email name newLocalId now
    let adminUser := upserted.1
    let lock2 : BootstrapLock :=
      { bootstrapped := true, superAdminUid := some firebaseUser.uid
        bootstrappedAt := some now }
    let pol2 := seedDefaultPolicies st.policies
    let audit := appendAuditLog H st.ledger
      { action := "BOOTSTRAP_SUCCESS", resource := "GOVERNANCE"
        details := some ("adminId:" ++ toString adminUser.id ++ ";email:" ++ email)
        ip := ip, userId := some (toString adminUser.id), resourceId := none }
      (toString now) auditOk
    ({ status := 201, adminId := some adminUser.id },
     { fbUsers := fb2, users := upserted.2, lock := some lock2
       policies := pol2, ledger := audit.2 })

/-- The state left by a bootstrap run that crashed right after the
identity-provider account was created: the Firebase user exists, but the
custom claims, local record, lock and policies were never written. -/
def bootstrapCrashAfterIdentity (st : BootState)
    (email password name : String) (newUid : Nat) : BootState :=
  { st with fbUsers := (resolveFirebaseUser st.fbUsers email password name newUid).2 }

/-- `POST /admin-recovery` (routes/governance.js lines 246-319). -/
def adminRecovery (H : String → String) (st : BootState)
    (configuredToken : Option String)
    (recoveryToken email password name ip : String)
    (newUid newLocalId now : Nat) (auditOk : Bool) : HttpResult × BootState :=
  match configuredToken with
  | none => ({ status := 503, adminId := none }, st)
  | some tok =>
    if recoveryToken ≠ tok then
      let audit := appendAuditLog H st.ledger
        { action := "RECOVERY_DENIED", resource := "GOVERNANCE"
          details := some ("email:" ++ email ++ ";reason:Invalid recovery token")
          ip := ip, userId := none, resourceId := none } (toString now) auditOk
      ({ status := 401, adminId := none }, { st with ledger := audit.2 })
    else
      let resolved := resolveFirebaseUser st.fbUsers email password name newUid
      let firebaseUser := resolved.1.1
      let fb2 := setCustomUserClaims resolved.2 firebaseUser.uid "admin"
      let upserted := upsertAdminUser st.users firebaseUser.uid email name newLocalId now
      let adminUser := upserted.1
      let audit := appendAuditLog H st.ledger
        { action := "RECOVERY_SUCCESS", resource := "GOVERNANCE"
          details := some ("adminId:" ++ toString adminUser.id ++ ";email:" ++ email)
          ip := ip, userId := some (toString adminUser.id), resourceId := none }
        (toString now) auditOk
      ({ status := 201, adminId := some adminUser.id },
       { st with fbUsers := fb2, users := upserted.2, ledger := audit.2 })


/-! ## 6. Claim-side definitions, witness fixtures -/


/-- Concrete injective, never-empty stand-in for the SHA-256 hex digest,
used by witnesses and counterexamples. -/
def witnessHash : String → String := fun s => "#" ++ s

/-- Witness users/policies/actions for concrete evaluations. -/
def wAdmin1 : User := { id := 1, role := "admin", status := "active" }

def wAdmin2 : User := { id := 2, role := "admin", status := "active" }

def wAdmin2Inactive : User := { id := 2, role := "admin", status := "inactive" }

def wRecoveryAction : PendingAction :=
  { id := 10, actionType := "SYSTEM_RECOVERY", status := "pending"
    requestedBy := 1, actionPayload := { targetUserId := 99 }, reason := "r"
    requiredApprovals := 1, approvals := [], vetoedBy := none
    vetoReason := none, vetoedAt := none, approvedAt := none
    scheduledExecutionAt := none, expiresAt := 10000, requestIp := "ip" }

/-- A still-`pending` action whose `expiresAt` (100) is already in the past. -/
def wStaleAction : PendingAction := { wRecoveryAction with expiresAt := 100 }

def wStaleState : GovState :=
  { users := [wAdmin1, wAdmin2], policies := DEFAULT_POLICIES
    actions := [wStaleAction], ledger := [] }

def wRecoveryState : GovState :=
  { users := [wAdmin1, wAdmin2], policies := DEFAULT_POLICIES
    actions := [wRecoveryAction], ledger := [] }

/-- The SYSTEM_RECOVERY default policy (requiredApprovals 1,
self-approval allowed). -/
def recoveryDefaultPolicy : Policy :=
  { actionType := "SYSTEM_RECOVERY"
    description :=
      "Emergency system recovery - create new admin when all are disabled"
    requiredApprovals := 1, allowedRequestors := ["admin"]
    allowedApprovers := ["admin"], selfApprovalAllowed := true
    executionDelaySecs := 600, reversibilityWindowSecs := 3600
    isSystemDefault := true, enabled := true }

def cexSelfApprovedAction : PendingAction :=
  { wRecoveryAction with
    status := "approved"
    approvals := [{ userId := 1, approvedAt := 500, comment := "" }]
    approvedAt := some 500, scheduledExecutionAt := some 600500 }

/-- Claim-side definition following the spec's words: the number of
distinct, policy-eligible, non-self approvers recorded on an action
(eligibility judged against the given policy and user store). The code's
own quorum test is `PendingAction.hasQuorum`; this definition exists to
compare the two. -/
def specEligibleNonSelfApproverCount (st : GovState) (policy : Policy)
    (pa : PendingAction) : Nat :=
  ((pa.approvals.map (fun a => a.userId)).dedup.filter (fun uid =>
    !(uid == pa.requestedBy) &&
    (match findUser st uid with
     | some u => policy.allowedApprovers.contains u.role
     | none => false))).length

/-- Two policies that agree on every field except `requiredApprovals`. -/
def PolicyAgreesExceptReq (p q : Policy) : Prop :=
  p.actionType = q.actionType ∧ p.description = q.description ∧
  p.allowedRequestors = q.allowedRequestors ∧
  p.allowedApprovers = q.allowedApprovers ∧
  p.selfApprovalAllowed = q.selfApprovalAllowed ∧
  p.executionDelaySecs = q.executionDelaySecs ∧
  p.reversibilityWindowSecs = q.reversibilityWindowSecs ∧
  p.isSystemDefault = q.isSystemDefault ∧ p.enabled = q.enabled

/-- Concrete states for the C7 counterexample ... -/
def cexPolicyFast : Policy :=
  { actionType := "SYSTEM_RECOVERY", description := "d", requiredApprovals := 1
    allowedRequestors := ["admin"], allowedApprovers := ["admin"]
    selfApprovalAllowed := true, executionDelaySecs := 600
    reversibilityWindowSecs := 3600, isSystemDefault := true, enabled := true }

def cexStateFast : GovState :=
  { users := [wAdmin1, wAdmin2], policies := [cexPolicyFast]
    actions := [wRecoveryAction], ledger := [] }

def cexStateSlow : GovState :=
  { cexStateFast with policies := [{ cexPolicyFast with executionDelaySecs := 900 }] }

def wQuorumStrictState : GovState :=
  { cexStateFast with policies := [{ cexPolicyFast with requiredApprovals := 5 }] }

/-- The hash of the last entry of `l`, or `prev` when `l` is empty: the
running hash after verifying `l` from `prev`. -/
def lastHash (prev : String) (l : List AuditEntry) : String :=
  match l.getLast? with
  | some e => e.entryHash
  | none => prev

/-- The well-formed-chain invariant of a stored ledger: starting from
hash `prev` and sequence number `s`, every entry links to its
predecessor, stores its own recomputed hash, and numbers are gap-free. -/
def ChainFrom (H : String → String) : String → Nat → List AuditEntry → Prop
  | _, _, [] => True
  | prev, s, e :: rest =>
      e.previousHash = prev ∧ e.entryHash = computeHash H e ∧
      e.sequenceNumber = s ∧ ChainFrom H e.entryHash (s + 1) rest

/-- Mutation of exactly one persisted entry, touching only its `action`
or its `details` field (every other stored field, the stored `entryHash`
included, kept intact). -/
def MutatedOnce (e e' : AuditEntry) : Prop :=
  e'.user = e.user ∧ e'.resource = e.resource ∧ e'.resourceId = e.resourceId ∧
  e'.ip = e.ip ∧ e'.previousHash = e.previousHash ∧ e'.entryHash = e.entryHash ∧
  e'.sequenceNumber = e.sequenceNumber ∧ e'.createdAt = e.createdAt ∧
  ((e'.details = e.details ∧ e'.action ≠ e.action) ∨
   (e'.action = e.action ∧ e'.details.getD "\x7b\x7d" ≠ e.details.getD "\x7b\x7d"))

def wReq1 : AppendReq :=
  { action := "A1", resource := "R", details := some "d1", ip := "ip"
    userId := some "7", resourceId := none }

def wReq2 : AppendReq :=
  { action := "A2", resource := "R", details := some "d2", ip := "ip"
    userId := none, resourceId := some "x" }

def wReqs : List (AppendReq × String) := [(wReq1, "t1"), (wReq2, "t2")]

def wEntry1 : AuditEntry :=
  { user := some "7", action := "A1", resource := "R", resourceId := none
    details := some "d1", ip := "ip", previousHash := "GENESIS"
    entryHash := "#GENESIS|A1|R||7|d1|ip|t1|1", sequenceNumber := 1
    createdAt := "t1" }

def wEntry2 : AuditEntry :=
  { user := none, action := "A2", resource := "R", resourceId := some "x"
    details := some "d2", ip := "ip"
    previousHash := "#GENESIS|A1|R||7|d1|ip|t1|1"
    entryHash := "##GENESIS|A1|R||7|d1|ip|t1|1|A2|R|x|SYSTEM|d2|ip|t2|2"
    sequenceNumber := 2, createdAt := "t2" }

def wMutEntry : AuditEntry := { wEntry1 with action := "EVIL" }

def deleteDefaultPolicy : Policy :=
  { actionType := "DELETE_ADMIN"
    description := "Delete an administrator account"
    requiredApprovals := 2, allowedRequestors := ["admin"]
    allowedApprovers := ["admin"], selfApprovalAllowed := false
    executionDelaySecs := 300, reversibilityWindowSecs := 3600
    isSystemDefault := true, enabled := true }

def wDeleteAction : PendingAction :=
  { id := 20, actionType := "DELETE_ADMIN", status := "pending"
    requestedBy := 1, actionPayload := { targetUserId := 1 }, reason := "r"
    requiredApprovals := 2, approvals := [], vetoedBy := none
    vetoReason := none, vetoedAt := none, approvedAt := none
    scheduledExecutionAt := none, expiresAt := 10000, requestIp := "ip" }

def wLockState : GovState :=
  { users := [wAdmin1, wAdmin2Inactive], policies := DEFAULT_POLICIES
    actions := [wDeleteAction], ledger := [] }

def wExpiredAction : PendingAction := { wStaleAction with status := "expired" }

def wExpiredState : GovState :=
  { users := [wAdmin1, wAdmin2], policies := DEFAULT_POLICIES
    actions := [wExpiredAction], ledger := [] }

def wEmptyBoot : BootState :=
  { fbUsers := [], users := [], lock := none, policies := [], ledger := [] }

def wBootedState : BootState :=
  { fbUsers := [], users := [], policies := [], ledger := []
    lock := some { bootstrapped := true, superAdminUid := some 1
                   bootstrappedAt := some 5 } }


/-! ## 7. Helper lemmas -/


lemma find?_map_update {l : List PendingAction} {actionId : Nat}
    {pa pa' : PendingAction}
    (h : l.find? (fun a => a.id == actionId) = some pa) (hid : pa'.id = pa.id) :
    (l.map (fun a => if a.id == pa'.id then pa' else a)).find?
      (fun a => a.id == actionId) = some pa' := by
  have hpaid : pa.id = actionId := by simpa using List.find?_some h
  induction l with
  | nil => simp at h
  | cons x xs ih =>
    rw [List.find?_cons] at h
    by_cases hx : (x.id == actionId) = true
    · rw [hx] at h
      simp only [] at h
      have hxid : x.id = actionId := by simpa using hx
      simp [List.find?_cons, hxid, hid, hpaid]
    · simp only [Bool.not_eq_true] at hx
      rw [hx] at h
      simp only [] at h
      simp only [List.map_cons]
      rw [List.find?_cons]
      have h1 : (x.id == pa'.id) = false := by
        rw [hid, hpaid]; exact hx
      rw [h1]
      simp only [Bool.false_eq_true, if_false]
      rw [hx]
      exact ih h

lemma findAction_updateAction {st : GovState} {actionId : Nat}
    {pa pa' : PendingAction}
    (h : findAction st actionId = some pa) (hid : pa'.id = pa.id) :
    findAction (updateAction st pa') actionId = some pa' := by
  unfold findAction updateAction at *
  exact find?_map_update h hid

lemma checkSafety_none {st : GovState} {tid : Nat} {act : String}
    (h : findUser st tid = none) :
    checkAdminCountSafety st tid act =
      { safe := true, currentCount := activeAdminCount st, wouldRemove := 0
        resultingCount := none } := by
  unfold checkAdminCountSafety
  rw [h]

lemma checkSafety_active {st : GovState} {tid : Nat} {act : String} {u : User}
    (hu : findUser st tid = some u) (hr : u.role = "admin")
    (hs : u.status = "active") :
    checkAdminCountSafety st tid act =
      { safe := decide ((MIN_ACTIVE_ADMINS : Int) ≤ (activeAdminCount st : Int) - 1)
        currentCount := activeAdminCount st, wouldRemove := 1
        resultingCount := some ((activeAdminCount st : Int) - 1) } := by
  unfold checkAdminCountSafety
  rw [hu]
  dsimp only
  rw [if_pos (by simp [hr, hs])]

lemma checkSafety_notActive {st : GovState} {tid : Nat} {act : String} {u : User}
    (hu : findUser st tid = some u)
    (h : ¬ (u.role = "admin" ∧ u.status = "active")) :
    checkAdminCountSafety st tid act =
      { safe := true, currentCount := activeAdminCount st, wouldRemove := 0
        resultingCount := none } := by
  unfold checkAdminCountSafety
  rw [hu]
  dsimp only
  rw [if_neg (by simp only [Bool.and_eq_true, beq_iff_eq]; exact h)]

lemma getPolicy_agrees {ps2 : List Policy} {st : GovState}
    (hrel : List.Forall₂ PolicyAgreesExceptReq st.policies ps2) (t : String) :
    (getPolicy st t = none ∧ getPolicy { st with policies := ps2 } t = none) ∨
    (∃ p q, getPolicy st t = some p ∧
      getPolicy { st with policies := ps2 } t = some q ∧
      PolicyAgreesExceptReq p q) := by
  unfold getPolicy
  dsimp only
  generalize st.policies = ps1 at hrel
  induction hrel with
  | nil => exact Or.inl ⟨rfl, rfl⟩
  | @cons p q l1 l2 hpq htail ih =>
    have h1 := hpq.1
    have h9 := hpq.2.2.2.2.2.2.2.2
    rw [List.find?_cons, List.find?_cons]
    by_cases hc : (p.actionType == t && p.enabled) = true
    · rw [hc]
      have hc2 : (q.actionType == t && q.enabled) = true := by
        rw [← h1, ← h9]; exact hc
      rw [hc2]
      exact Or.inr ⟨p, q, rfl, rfl, hpq⟩
    · have hc' : (p.actionType == t && p.enabled) = false := by
        simpa using hc
      have hc2 : (q.actionType == t && q.enabled) = false := by
        rw [← h1, ← h9]; exact hc'
      rw [hc', hc2]
      exact ih

/-- The outcome of a `bootstrap-admin` call when the lock is already set:
409, only the ledger grows. -/
lemma bootstrap_blocked {H : String → String} {st : BootState}
    {email password name ip : String} {newUid newLocalId now : Nat}
    {auditOk : Bool} (hb : isSystemBootstrapped st = true) :
    (bootstrapAdmin H st email password name ip newUid newLocalId now
        auditOk).1.status = 409 ∧
    (bootstrapAdmin H st email password name ip newUid newLocalId now
        auditOk).2.lock = st.lock ∧
    (bootstrapAdmin H st email password name ip newUid newLocalId now
        auditOk).2.users = st.users ∧
    (bootstrapAdmin H st email password name ip newUid newLocalId now
        auditOk).2.fbUsers = st.fbUsers ∧
    (bootstrapAdmin H st email password name ip newUid newLocalId now
        auditOk).2.policies = st.policies := by
  unfold bootstrapAdmin
  rw [if_pos hb]
  exact ⟨rfl, rfl, rfl, rfl, rfl⟩

/-- A successful bootstrap writes the lock with `bootstrapped := true`. -/
lemma bootstrap_success_lock {H : String → String} {st : BootState}
    {email password name ip : String} {newUid newLocalId now : Nat}
    {auditOk : Bool} (hb : isSystemBootstrapped st = false)
    (he : email ≠ "") (hp : password ≠ "") (hn : name ≠ "") :
    (bootstrapAdmin H st email password name ip newUid newLocalId now
        auditOk).1.status = 201 ∧
    isSystemBootstrapped (bootstrapAdmin H st email password name ip newUid
        newLocalId now auditOk).2 = true := by
  unfold bootstrapAdmin
  rw [if_neg (by simp [hb])]
  rw [if_neg (by simp [he, hp, hn])]
  exact ⟨rfl, rfl⟩

lemma foldl_lastStep_spec (l : List AuditEntry) (a : AuditEntry) :
    ∃ r, l.foldl lastStep (some a) = some r ∧ (r = a ∨ r ∈ l) ∧
      a.sequenceNumber ≤ r.sequenceNumber ∧
      ∀ b ∈ l, b.sequenceNumber ≤ r.sequenceNumber := by
  induction l generalizing a with
  | nil => exact ⟨a, rfl, Or.inl rfl, le_refl _, by simp⟩
  | cons x xs ih =>
    by_cases hx : a.sequenceNumber ≤ x.sequenceNumber
    · have hstep : lastStep (some a) x = some x := by
        show (if a.sequenceNumber ≤ x.sequenceNumber then some x else some a)
          = some x
        rw [if_pos hx]
      obtain ⟨r, hr, hmem, hle, hall⟩ := ih x
      refine ⟨r, ?_, ?_, le_trans hx hle, ?_⟩
      · rw [List.foldl_cons, hstep]
        exact hr
      · rcases hmem with h | h
        · exact Or.inr (by simp [h])
        · exact Or.inr (by simp [h])
      · intro b hb
        rcases List.mem_cons.mp hb with h | h
        · rw [h]
          exact hle
        · exact hall b h
    · have hstep : lastStep (some a) x = some a := by
        show (if a.sequenceNumber ≤ x.sequenceNumber then some x else some a)
          = some a
        rw [if_neg hx]
      obtain ⟨r, hr, hmem, hle, hall⟩ := ih a
      refine ⟨r, ?_, ?_, hle, ?_⟩
      · rw [List.foldl_cons, hstep]
        exact hr
      · rcases hmem with h | h
        · exact Or.inl h
        · exact Or.inr (by simp [h])
      · intro b hb
        rcases List.mem_cons.mp hb with h | h
        · rw [h]
          exact le_trans (le_of_not_le hx) hle
        · exact hall b h

lemma lastEntry?_none_iff (l : List AuditEntry) :
    lastEntry? l = none ↔ l = [] := by
  cases l with
  | nil => simp [lastEntry?]
  | cons x xs =>
    simp only [lastEntry?, List.foldl_cons]
    have hstep : lastStep none x = some x := rfl
    rw [hstep]
    obtain ⟨r, hr, _, _, _⟩ := foldl_lastStep_spec xs x
    rw [hr]
    simp

lemma lastEntry?_spec {l : List AuditEntry} {a : AuditEntry}
    (h : lastEntry? l = some a) :
    a ∈ l ∧ ∀ b ∈ l, b.sequenceNumber ≤ a.sequenceNumber := by
  cases l with
  | nil => simp [lastEntry?] at h
  | cons x xs =>
    unfold lastEntry? at h
    rw [List.foldl_cons] at h
    have hstep : lastStep none x = some x := rfl
    rw [hstep] at h
    obtain ⟨r, hr, hmem, hle, hall⟩ := foldl_lastStep_spec xs x
    rw [hr] at h
    injection h with h2
    subst h2
    constructor
    · rcases hmem with h | h
      · simp [h]
      · simp [h]
    · intro b hb
      rcases List.mem_cons.mp hb with h | h
      · rw [h]
        exact hle
      · exact hall b h

lemma chainFrom_seq_ge {H : String → String} :
    ∀ {l : List AuditEntry} {prev : String} {s : Nat},
      ChainFrom H prev s l → ∀ e ∈ l, s ≤ e.sequenceNumber := by
  intro l
  induction l with
  | nil => intro prev s _ e he; simp at he
  | cons x xs ih =>
    intro prev s h e he
    obtain ⟨_, _, hseq, htail⟩ := h
    rcases List.mem_cons.mp he with h1 | h1
    · rw [h1, hseq]
    · exact le_trans (Nat.le_succ s) (ih htail e h1)

lemma chainFrom_sorted {H : String → String} :
    ∀ {l : List AuditEntry} {prev : String} {s : Nat},
      ChainFrom H prev s l →
      l.Pairwise (fun a b => a.sequenceNumber ≤ b.sequenceNumber) := by
  intro l
  induction l with
  | nil => intro prev s _; exact List.Pairwise.nil
  | cons x xs ih =>
    intro prev s h
    obtain ⟨_, _, hseq, htail⟩ := h
    refine List.Pairwise.cons ?_ (ih htail)
    intro b hb
    rw [hseq]
    exact le_trans (Nat.le_succ s) (chainFrom_seq_ge htail b hb)

lemma chainFrom_take {H : String → String} :
    ∀ {l : List AuditEntry} {prev : String} {s : Nat},
      ChainFrom H prev s l → ∀ n, ChainFrom H prev s (l.take n) := by
  intro l
  induction l with
  | nil => intro prev s h n; simp [h]
  | cons x xs ih =>
    intro prev s h n
    obtain ⟨h1, h2, h3, htail⟩ := h
    cases n with
    | zero => exact trivial
    | succ m => exact ⟨h1, h2, h3, ih htail m⟩

lemma lastHash_cons (prev : String) (e : AuditEntry) (l : List AuditEntry) :
    lastHash prev (e :: l) = lastHash e.entryHash l := by
  cases l with
  | nil => rfl
  | cons y ys =>
    unfold lastHash
    rw [List.getLast?_cons_cons, List.getLast?_cons]

lemma verifyLoop_append {H : String → String} :
    ∀ {l1 : List AuditEntry} {prev : String} {s : Nat},
      ChainFrom H prev s l1 → ∀ (rest : List AuditEntry) (c : Nat),
      verifyLoop H (l1 ++ rest) prev c =
        verifyLoop H rest (lastHash prev l1) (c + l1.length) := by
  intro l1
  induction l1 with
  | nil => intro prev s _ rest c; simp [lastHash]
  | cons x xs ih =>
    intro prev s h rest c
    obtain ⟨h1, h2, _, htail⟩ := h
    rw [List.cons_append]
    have harith : c + 1 + xs.length = c + (x :: xs).length := by
      simp only [List.length_cons]
      omega
    conv_lhs => rw [verifyLoop]
    rw [if_neg (by simp [h1]), if_neg (by simp [h2])]
    rw [ih htail rest (c + 1), lastHash_cons, harith]

lemma verifyLoop_ok {H : String → String} {l : List AuditEntry}
    {prev : String} {s c : Nat} (h : ChainFrom H prev s l) :
    verifyLoop H l prev c =
      { valid := true, brokenAt := none, checked := c + l.length } := by
  have h2 := verifyLoop_append h [] c
  rw [List.append_nil] at h2
  rw [h2]
  rfl

lemma chainFrom_append_split {H : String → String} :
    ∀ {l1 l2 : List AuditEntry} {prev : String} {s : Nat},
      ChainFrom H prev s (l1 ++ l2) →
      ChainFrom H prev s l1 ∧
      ChainFrom H (lastHash prev l1) (s + l1.length) l2 := by
  intro l1
  induction l1 with
  | nil =>
    intro l2 prev s h
    refine ⟨trivial, ?_⟩
    simpa [lastHash] using h
  | cons x xs ih =>
    intro l2 prev s h
    rw [List.cons_append] at h
    obtain ⟨h1, h2, h3, htail⟩ := h
    obtain ⟨ha, hb⟩ := ih htail
    refine ⟨⟨h1, h2, h3, ha⟩, ?_⟩
    rw [lastHash_cons]
    have : s + 1 + xs.length = s + (x :: xs).length := by
      simp only [List.length_cons]
      omega
    rw [← this]
    exact hb

lemma chain_foldl_lastStep {H : String → String} :
    ∀ {l : List AuditEntry} {prev : String} {s : Nat} {a : AuditEntry},
      ChainFrom H prev s l → a.sequenceNumber < s →
      l.foldl lastStep (some a) = some (l.getLast?.getD a) := by
  intro l
  induction l with
  | nil => intro prev s a _ _; rfl
  | cons x xs ih =>
    intro prev s a h hlt
    obtain ⟨_, _, hseq, htail⟩ := h
    have hstep : lastStep (some a) x = some x := by
      show (if a.sequenceNumber ≤ x.sequenceNumber then some x else some a)
        = some x
      rw [if_pos (le_of_lt (by rw [hseq]; exact hlt))]
    rw [List.foldl_cons, hstep]
    have hxlt : x.sequenceNumber < s + 1 := by
      rw [hseq]
      exact Nat.lt_succ_self s
    rw [ih htail hxlt]
    rw [List.getLast?_cons]
    cases xs <;> simp

lemma chain_lastEntry? {H : String → String} {l : List AuditEntry}
    {prev : String} {s : Nat} (h : ChainFrom H prev s l) :
    lastEntry? l = l.getLast? := by
  cases l with
  | nil => rfl
  | cons x xs =>
    obtain ⟨_, _, hseq, htail⟩ := h
    unfold lastEntry?
    rw [List.foldl_cons]
    have hstep : lastStep none x = some x := rfl
    rw [hstep]
    have hxlt : x.sequenceNumber < s + 1 := by
      rw [hseq]
      exact Nat.lt_succ_self s
    rw [chain_foldl_lastStep htail hxlt]
    rw [List.getLast?_cons]

lemma chain_getLast {H : String → String} :
    ∀ {l : List AuditEntry} {prev : String} {s : Nat},
      ChainFrom H prev s l → l ≠ [] →
      ∃ last, l.getLast? = some last ∧
        last.sequenceNumber + 1 = s + l.length ∧
        lastHash prev l = last.entryHash := by
  intro l
  induction l with
  | nil => intro prev s _ hne; exact absurd rfl hne
  | cons x xs ih =>
    intro prev s h _
    obtain ⟨_, _, hseq, htail⟩ := h
    by_cases hxs : xs = []
    · subst hxs
      refine ⟨x, rfl, ?_, rfl⟩
      rw [hseq]
      simp
    · obtain ⟨last, hl, hseq2, hh⟩ := ih htail hxs
      refine ⟨last, ?_, ?_, ?_⟩
      · rw [List.getLast?_cons, hl]
        rfl
      · simp only [List.length_cons]
        omega
      · rw [lastHash_cons]
        exact hh

lemma chainFrom_snoc {H : String → String} :
    ∀ {l : List AuditEntry} {prev : String} {s : Nat} {e : AuditEntry},
      ChainFrom H prev s l →
      e.previousHash = lastHash prev l →
      e.entryHash = computeHash H e →
      e.sequenceNumber = s + l.length →
      ChainFrom H prev s (l ++ [e]) := by
  intro l
  induction l with
  | nil =>
    intro prev s e _ h1 h2 h3
    refine ⟨?_, h2, ?_, trivial⟩
    · simpa [lastHash] using h1
    · simpa using h3
  | cons x xs ih =>
    intro prev s e h h1 h2 h3
    obtain ⟨g1, g2, g3, gtail⟩ := h
    rw [List.cons_append]
    refine ⟨g1, g2, g3, ?_⟩
    refine ih gtail ?_ h2 ?_
    · rw [h1, lastHash_cons]
    · rw [h3]
      simp only [List.length_cons]
      omega

lemma mkEntry_snoc_chain {H : String → String} {l : List AuditEntry}
    (r : AppendReq) (now : String) (h : ChainFrom H "GENESIS" 1 l) :
    ChainFrom H "GENESIS" 1 (l ++ [mkEntry H l r now]) := by
  by_cases hl : l = []
  · subst hl
    exact chainFrom_snoc h rfl rfl rfl
  · obtain ⟨last, hgl, hseq, hlh⟩ := chain_getLast h hl
    have hle : lastEntry? l = some last := by
      rw [chain_lastEntry? h, hgl]
    refine chainFrom_snoc h ?_ rfl ?_
    · show (match lastEntry? l with
        | some e => e.entryHash
        | none => "GENESIS") = lastHash "GENESIS" l
      rw [hle, hlh]
    · show (match lastEntry? l with
        | some e => e.sequenceNumber + 1
        | none => 1) = 1 + l.length
      rw [hle]
      exact hseq

lemma buildLedger_chain_aux (H : String → String) :
    ∀ (reqs : List (AppendReq × String)) (l : List AuditEntry),
      ChainFrom H "GENESIS" 1 l →
      ChainFrom H "GENESIS" 1
        (reqs.foldl (fun l2 rn => (appendAuditLog H l2 rn.1 rn.2 true).2) l) := by
  intro reqs
  induction reqs with
  | nil => intro l h; exact h
  | cons rn rest ih =>
    intro l h
    rw [List.foldl_cons]
    have hstep : (appendAuditLog H l rn.1 rn.2 true).2
        = l ++ [mkEntry H l rn.1 rn.2] := rfl
    rw [hstep]
    exact ih _ (mkEntry_snoc_chain rn.1 rn.2 h)

lemma buildLedger_chain (H : String → String) (reqs : List (AppendReq × String)) :
    ChainFrom H "GENESIS" 1 (buildLedger H reqs) :=
  buildLedger_chain_aux H reqs [] trivial

lemma joinPipe9_ne_pos2 {c1 x y c3 c4 c5 c6 c7 c8 c9 : String} (hne : x ≠ y) :
    joinPipe [c1, x, c3, c4, c5, c6, c7, c8, c9] ≠
      joinPipe [c1, y, c3, c4, c5, c6, c7, c8, c9] := by
  intro h
  apply hne
  have hd := congrArg String.data h
  simp only [joinPipe, String.data_append, List.append_assoc] at hd
  have h1 := List.append_cancel_left hd
  have h2 := List.append_cancel_left h1
  have h3 := List.append_cancel_right h2
  cases x
  cases y
  simp only at h3
  rw [h3]

lemma joinPipe9_ne_pos6 {c1 c2 c3 c4 c5 x y c7 c8 c9 : String} (hne : x ≠ y) :
    joinPipe [c1, c2, c3, c4, c5, x, c7, c8, c9] ≠
      joinPipe [c1, c2, c3, c4, c5, y, c7, c8, c9] := by
  intro h
  apply hne
  have hd := congrArg String.data h
  simp only [joinPipe, String.data_append, List.append_assoc] at hd
  have h1 := List.append_cancel_left hd
  have h2 := List.append_cancel_left h1
  have h3 := List.append_cancel_left h2
  have h4 := List.append_cancel_left h3
  have h5 := List.append_cancel_left h4
  have h6 := List.append_cancel_left h5
  have h7 := List.append_cancel_left h6
  have h8 := List.append_cancel_left h7
  have h9 := List.append_cancel_left h8
  have h10 := List.append_cancel_left h9
  have h11 := List.append_cancel_right h10
  cases x
  cases y
  simp only at h11
  rw [h11]

lemma hashPayload_ne {e e' : AuditEntry} (h : MutatedOnce e e') :
    hashPayload e' ≠ hashPayload e := by
  obtain ⟨h1, h2, h3, h4, h5, h6, h7, h8, hcase⟩ := h
  unfold hashPayload
  rw [h1, h2, h3, h4, h5, h8]
  rw [h7]
  rcases hcase with ⟨hd, ha⟩ | ⟨ha, hd⟩
  · rw [hd]
    exact joinPipe9_ne_pos2 ha
  · rw [ha]
    exact joinPipe9_ne_pos6 hd

lemma pairwise_seq_transfer {l l' : List AuditEntry}
    (hmap : l'.map (fun x => x.sequenceNumber) = l.map (fun x => x.sequenceNumber))
    (h : l.Pairwise (fun a b => a.sequenceNumber ≤ b.sequenceNumber)) :
    l'.Pairwise (fun a b => a.sequenceNumber ≤ b.sequenceNumber) := by
  have h1 : (l.map (fun x => x.sequenceNumber)).Pairwise (· ≤ ·) :=
    List.pairwise_map.mpr h
  rw [← hmap] at h1
  exact List.pairwise_map.mp h1

lemma witnessHash_injective : Function.Injective witnessHash := by
  intro a b h
  have hd := congrArg String.data h
  simp only [witnessHash, String.data_append] at hd
  have h2 := List.append_cancel_left hd
  cases a
  cases b
  simp only at h2
  rw [h2]


/-! ## 8. The verified properties -/


/-- C1: for a create or approve of a DELETE_ADMIN, DEMOTE_ADMIN or
DEACTIVATE_ADMIN action whose target is an active admin, when
`activeAdminCount - 1 < MIN_ACTIVE_ADMINS` (= 1) the call fails with the
lockout error and returns the state unchanged, so no PendingAction is
persisted or modified; and the safety verdict of `checkAdminCountSafety`
equals `resultingCount ≥ 1` exactly when the target is an active admin
and is trivially safe otherwise. The create/approve parts assume the
call reaches the lockout gate (policy present, caller authorised, and
for approve: action pending, unexpired, eligible non-duplicate
non-self approver). -/
theorem c1_admin_lockout_guard (H : String → String) (st : GovState)
    (actionType : String) (requestorId : Nat) (payload : ActionPayload)
    (reason ip comment : String) (now newActionId actionId approverId : Nat)
    (auditOk : Bool) (tid : Nat) (act : String) :
    -- (i) the safety verdict
    ((∀ u, findUser st tid = some u → u.role = "admin" → u.status = "active" →
        (checkAdminCountSafety st tid act).safe
          = decide ((MIN_ACTIVE_ADMINS : Int) ≤ (activeAdminCount st : Int) - 1)) ∧
     (findUser st tid = none → (checkAdminCountSafety st tid act).safe = true) ∧
     (∀ u, findUser st tid = some u → ¬ (u.role = "admin" ∧ u.status = "active") →
        (checkAdminCountSafety st tid act).safe = true)) ∧
    -- (ii) create refuses, persists nothing, leaves the state unchanged
    (∀ policy requestor target,
      actionType ∈ adminAffecting →
      getPolicy st actionType = some policy →
      findUser st requestorId = some requestor →
      policy.allowedRequestors.contains requestor.role = true →
      findUser st payload.targetUserId = some target →
      target.role = "admin" → target.status = "active" →
      (activeAdminCount st : Int) - 1 < (MIN_ACTIVE_ADMINS : Int) →
      createPendingAction H st actionType requestorId payload reason ip now
          newActionId auditOk
        = (.error (createLockoutMsg (activeAdminCount st)), st)) ∧
    -- (iii) approve refuses, appends nothing, leaves the state unchanged
    (∀ pa policy approver target,
      findAction st actionId = some pa →
      pa.status = "pending" →
      pa.isExpired now = false →
      getPolicy st pa.actionType = some policy →
      findUser st approverId = some approver →
      policy.allowedApprovers.contains approver.role = true →
      (!policy.selfApprovalAllowed && pa.requestedBy == approverId) = false →
      pa.hasUserApproved approverId = false →
      pa.actionType ∈ adminAffecting →
      findUser st pa.actionPayload.targetUserId = some target →
      target.role = "admin" → target.status = "active" →
      (activeAdminCount st : Int) - 1 < (MIN_ACTIVE_ADMINS : Int) →
      approvePendingAction H st actionId approverId comment ip now auditOk
        = (.error approveLockoutMsg, st)) := by
  refine ⟨⟨?_, ?_, ?_⟩, ?_, ?_⟩
  · intro u hu hr hs
    rw [checkSafety_active hu hr hs]
  · intro h
    rw [checkSafety_none h]
  · intro u hu h
    rw [checkSafety_notActive hu h]
  · intro policy requestor target hmem hpol hreq hperm htgt hr hs hlt
    unfold createPendingAction
    rw [hpol]
    dsimp only
    rw [hreq]
    dsimp only
    rw [if_neg (by simpa using hperm)]
    have hsafety := @checkSafety_active st payload.targetUserId actionType
      target htgt hr hs
    have hsafe : (checkAdminCountSafety st payload.targetUserId actionType).safe = false := by
      rw [hsafety]
      simpa using hlt
    rw [if_pos (by
      simp only [Bool.and_eq_true, Bool.not_eq_true']
      exact ⟨by simpa using hmem, hsafe⟩)]
    rw [hsafety]
  · intro pa policy approver target hfa hst hexp hpol hap hrole hself hdup hmem htgt hr hs hlt
    unfold approvePendingAction
    rw [hfa]
    dsimp only
    rw [if_neg (by simp [hst])]
    rw [if_neg (by simp [hexp])]
    rw [hpol]
    dsimp only
    rw [hap]
    dsimp only
    rw [if_neg (by simpa using hrole)]
    rw [if_neg (by simp [hself])]
    rw [if_neg (by simp [hdup])]
    have hsafety := @checkSafety_active st pa.actionPayload.targetUserId
      pa.actionType target htgt hr hs
    have hsafe : (checkAdminCountSafety st pa.actionPayload.targetUserId pa.actionType).safe = false := by
      rw [hsafety]
      simpa using hlt
    rw [if_pos (by
      simp only [Bool.and_eq_true, Bool.not_eq_true']
      exact ⟨by simpa using hmem, hsafe⟩)]

/-- Witness for C1 at a one-active-admin store. -/
theorem c1_admin_lockout_guard_witness :
    (checkAdminCountSafety wLockState 1 "DELETE_ADMIN").safe
      = decide ((MIN_ACTIVE_ADMINS : Int) ≤ (activeAdminCount wLockState : Int) - 1) ∧
    createPendingAction witnessHash wLockState "DELETE_ADMIN" 1
        { targetUserId := 1 } "r" "ip" 500 50 true
      = (.error (createLockoutMsg (activeAdminCount wLockState)), wLockState) ∧
    approvePendingAction witnessHash wLockState 20 2 "" "ip" 500 true
      = (.error approveLockoutMsg, wLockState) := by
  have h := c1_admin_lockout_guard witnessHash wLockState "DELETE_ADMIN" 1
    { targetUserId := 1 } "r" "ip" "" 500 50 20 2 true 1 "DELETE_ADMIN"
  refine ⟨?_, ?_, ?_⟩
  · exact h.1.1 wAdmin1 (by decide) rfl rfl
  · exact h.2.1 deleteDefaultPolicy wAdmin1 wAdmin1 (by decide) (by decide)
      (by decide) (by decide) (by decide) rfl rfl (by decide)
  · exact h.2.2 wDeleteAction deleteDefaultPolicy wAdmin2Inactive wAdmin1
      (by decide) rfl (by decide) (by decide) (by decide) (by decide)
      (by decide) (by decide) (by decide) (by decide) rfl rfl (by decide)

/-- C2 (amended): a successful approve appends exactly one approver who
was not yet on the list, is eligible under the current policy, and
differs from the requestor whenever the policy forbids self-approval;
the action transitions to approved if and only if the approval count
after the append reaches the `requiredApprovals` snapshot (so for
actions whose recorded approvers are distinct, the count of distinct
eligible approvers — non-self whenever self-approval is disallowed —
decides the quorum); and an approve by a user already in the approvals
list always fails without ever increasing the approval count, with the
duplicate-approval message once the earlier guards pass. The original
stronger reading — counting only non-self approvers even under a
self-approval waiver — is refuted by `c2_counterexample`. -/
theorem c2_quorum_monotonicity (H : String → String) (st : GovState)
    (actionId approverId : Nat) (comment ip : String) (now : Nat)
    (auditOk : Bool) (pa : PendingAction)
    (hfa : findAction st actionId = some pa) :
    (∀ pa', (approvePendingAction H st actionId approverId comment ip now
        auditOk).1 = .ok pa' →
      pa'.requiredApprovals = pa.requiredApprovals ∧
      (pa'.status = "approved" ↔ pa.requiredApprovals ≤ pa.approvals.length + 1) ∧
      pa'.approvals.map (fun a => a.userId)
        = pa.approvals.map (fun a => a.userId) ++ [approverId] ∧
      pa.hasUserApproved approverId = false ∧
      ((pa.approvals.map (fun a => a.userId)).Nodup →
        (pa'.approvals.map (fun a => a.userId)).Nodup) ∧
      (∃ policy approver, getPolicy st pa.actionType = some policy ∧
        findUser st approverId = some approver ∧
        approver.role ∈ policy.allowedApprovers ∧
        (policy.selfApprovalAllowed = false → pa.requestedBy ≠ approverId))) ∧
    (pa.hasUserApproved approverId = true →
      (∃ msg, (approvePendingAction H st actionId approverId comment ip now
          auditOk).1 = .error msg) ∧
      (∀ pa2, findAction (approvePendingAction H st actionId approverId comment
          ip now auditOk).2 actionId = some pa2 → pa2.approvals = pa.approvals) ∧
      (pa.status = "pending" → pa.isExpired now = false →
        ∀ policy approver, getPolicy st pa.actionType = some policy →
          findUser st approverId = some approver →
          policy.allowedApprovers.contains approver.role = true →
          (!policy.selfApprovalAllowed && pa.requestedBy == approverId) = false →
          (approvePendingAction H st actionId approverId comment ip now
            auditOk).1 = .error "You have already approved this action")) := by
  constructor
  · -- success analysis
    intro pa' hok
    unfold approvePendingAction at hok
    rw [hfa] at hok
    dsimp only at hok
    by_cases hst : pa.status ≠ "pending"
    · rw [if_pos hst] at hok; exact absurd hok (by simp)
    · rw [if_neg hst] at hok
      by_cases hexp : pa.isExpired now = true
      · rw [if_pos hexp] at hok; exact absurd hok (by simp)
      · rw [if_neg hexp] at hok
        cases hpol : getPolicy st pa.actionType with
        | none => rw [hpol] at hok; exact absurd hok (by simp)
        | some policy =>
          rw [hpol] at hok
          dsimp only at hok
          cases hap : findUser st approverId with
          | none => rw [hap] at hok; exact absurd hok (by simp)
          | some approver =>
            rw [hap] at hok
            dsimp only at hok
            by_cases hrole : ¬ policy.allowedApprovers.contains approver.role = true
            · rw [if_pos hrole] at hok; exact absurd hok (by simp)
            · rw [if_neg hrole] at hok
              by_cases hself : (!policy.selfApprovalAllowed
                  && pa.requestedBy == approverId) = true
              · rw [if_pos hself] at hok; exact absurd hok (by simp)
              · rw [if_neg hself] at hok
                by_cases hdup : pa.hasUserApproved approverId = true
                · rw [if_pos hdup] at hok; exact absurd hok (by simp)
                · rw [if_neg hdup] at hok
                  by_cases hlock : (adminAffecting.contains pa.actionType &&
                      !(checkAdminCountSafety st pa.actionPayload.targetUserId
                        pa.actionType).safe) = true
                  · rw [if_pos hlock] at hok; exact absurd hok (by simp)
                  · rw [if_neg hlock] at hok
                    dsimp only at hok
                    have hdupf : pa.hasUserApproved approverId = false := by
                      simpa using hdup
                    have hmem : approverId ∉ pa.approvals.map (fun a => a.userId) := by
                      intro hm
                      obtain ⟨a, ha, hau⟩ := List.mem_map.mp hm
                      have : pa.approvals.any (fun a => a.userId == approverId) = true :=
                        List.any_eq_true.mpr ⟨a, ha, by simp [hau]⟩
                      rw [PendingAction.hasUserApproved] at hdupf
                      rw [hdupf] at this
                      exact Bool.false_ne_true this
                    have hpend : pa.status = "pending" := not_not.mp hst
                    set pa2 : PendingAction := { pa with approvals := pa.approvals ++
                      [{ userId := approverId, approvedAt := now, comment := comment }] }
                      with hpa2
                    have hlen : pa2.approvals.length = pa.approvals.length + 1 := by
                      rw [hpa2]
                      simp
                    have hmap : pa2.approvals.map (fun a => a.userId)
                        = pa.approvals.map (fun a => a.userId) ++ [approverId] := by
                      rw [hpa2]
                      simp
                    have hnodup : (pa.approvals.map (fun a => a.userId)).Nodup →
                        (pa2.approvals.map (fun a => a.userId)).Nodup := by
                      intro hnd
                      rw [hmap, List.nodup_append]
                      exact ⟨hnd, List.nodup_singleton _,
                        by simpa [List.disjoint_singleton] using hmem⟩
                    have hselfimp : policy.selfApprovalAllowed = false →
                        pa.requestedBy ≠ approverId := by
                      intro hsf heq
                      rw [hsf] at hself
                      simp only [Bool.not_false, Bool.true_and] at hself
                      exact hself (by simp [heq])
                    by_cases hq : pa2.hasQuorum = true
                    · rw [if_pos hq] at hok
                      have hqn : pa.requiredApprovals ≤ pa.approvals.length + 1 := by
                        rw [PendingAction.hasQuorum] at hq
                        rw [hlen] at hq
                        simpa using hq
                      injection hok with hok2
                      subst hok2
                      refine ⟨rfl, ⟨fun _ => hqn, fun _ => rfl⟩, hmap, hdupf,
                        hnodup, policy, approver, rfl, rfl,
                        by simpa using hrole, hselfimp⟩
                    · rw [if_neg hq] at hok
                      have hqn : ¬ pa.requiredApprovals ≤ pa.approvals.length + 1 := by
                        intro hle
                        apply hq
                        rw [PendingAction.hasQuorum, hlen]
                        simpa using hle
                      injection hok with hok2
                      subst hok2
                      refine ⟨?_, ?_, hmap, hdupf, hnodup, policy, approver,
                        rfl, rfl, by simpa using hrole, hselfimp⟩
                      · rw [hpa2]
                      · constructor
                        · intro habs
                          rw [hpa2] at habs
                          simp only at habs
                          rw [hpend] at habs
                          exact absurd habs (by decide)
                        · intro hle
                          exact absurd hle hqn
  · -- duplicate approver analysis
    intro hdup
    unfold approvePendingAction
    rw [hfa]
    dsimp only
    by_cases hst : pa.status ≠ "pending"
    · rw [if_pos hst]
      refine ⟨⟨_, rfl⟩, ?_, ?_⟩
      · intro pa2 hpa2
        rw [hfa] at hpa2
        cases hpa2; rfl
      · intro hpend _
        exact absurd hpend (by simpa using hst)
    · rw [if_neg hst]
      by_cases hexp : pa.isExpired now = true
      · rw [if_pos hexp]
        refine ⟨⟨_, rfl⟩, ?_, ?_⟩
        · intro pa2 hpa2
          have hupd := @findAction_updateAction st actionId pa
            { pa with status := "expired" } hfa rfl
          rw [hupd] at hpa2
          cases hpa2; rfl
        · intro _ hnexp
          rw [hexp] at hnexp
          exact absurd hnexp (by simp)
      · rw [if_neg hexp]
        cases hpol : getPolicy st pa.actionType with
        | none =>
          refine ⟨⟨_, rfl⟩, ?_, ?_⟩
          · intro pa2 hpa2
            rw [hfa] at hpa2
            cases hpa2; rfl
          · intro _ _ policy approver hpol2 _ _ _
            cases hpol2
        | some policy =>
          dsimp only
          cases hap : findUser st approverId with
          | none =>
            refine ⟨⟨_, rfl⟩, ?_, ?_⟩
            · intro pa2 hpa2
              rw [hfa] at hpa2
              cases hpa2; rfl
            · intro _ _ policy2 approver hpol2 hap2 _ _
              cases hap2
          | some approver =>
            dsimp only
            by_cases hrole : ¬ policy.allowedApprovers.contains approver.role = true
            · rw [if_pos hrole]
              refine ⟨⟨_, rfl⟩, ?_, ?_⟩
              · intro pa2 hpa2
                rw [hfa] at hpa2
                cases hpa2; rfl
              · intro _ _ policy2 approver2 hpol2 hap2 hrole2 _
                cases hpol2
                cases hap2
                exact absurd hrole2 hrole
            · rw [if_neg hrole]
              by_cases hself : (!policy.selfApprovalAllowed
                  && pa.requestedBy == approverId) = true
              · rw [if_pos hself]
                refine ⟨⟨_, rfl⟩, ?_, ?_⟩
                · intro pa2 hpa2
                  rw [hfa] at hpa2
                  cases hpa2; rfl
                · intro _ _ policy2 approver2 hpol2 _ _ hself2
                  cases hpol2
                  rw [hself] at hself2
                  exact absurd hself2 (by simp)
              · rw [if_neg hself]
                rw [if_pos hdup]
                refine ⟨⟨_, rfl⟩, ?_, fun _ _ _ _ _ _ _ _ => rfl⟩
                intro pa2 hpa2
                rw [hfa] at hpa2
                cases hpa2; rfl

/-- C2 counterexample: under the SYSTEM_RECOVERY default policy
(selfApprovalAllowed = true, requiredApprovals = 1) the requestor
approves the own request; the action reaches approved although the
number of distinct, policy-eligible, non-self approvers is 0, refuting
the statement that approved is reached only when that non-self count
meets the snapshot. -/
theorem c2_counterexample :
    (approvePendingAction witnessHash wRecoveryState 10 1 "" "ip" 500 true).1
      = .ok cexSelfApprovedAction ∧
    cexSelfApprovedAction.status = "approved" ∧
    cexSelfApprovedAction.requiredApprovals = 1 ∧
    getPolicy wRecoveryState "SYSTEM_RECOVERY" = some recoveryDefaultPolicy ∧
    specEligibleNonSelfApproverCount wRecoveryState recoveryDefaultPolicy
      cexSelfApprovedAction = 0 := by
  refine ⟨rfl, rfl, rfl, by decide, by decide⟩

/-- Witness for C2 at the concrete self-approval run. -/
theorem c2_quorum_monotonicity_witness :
    (cexSelfApprovedAction.status = "approved" ↔
      wRecoveryAction.requiredApprovals ≤ wRecoveryAction.approvals.length + 1) ∧
    wRecoveryAction.hasUserApproved 1 = false := by
  have h := (c2_quorum_monotonicity witnessHash wRecoveryState 10 1 "" "ip" 500
    true wRecoveryAction (by decide)).1 cexSelfApprovedAction rfl
  exact ⟨h.2.1, h.2.2.2.1⟩

/-- C3: a ledger produced solely by appends verifies as
`valid = true, brokenAt = none` with `checked` equal to the number of
entries examined, for every limit; and if exactly one persisted entry
has its `action` or its `details` serialisation mutated, a verify that
covers the ledger reports `valid = false` with `brokenAt` equal to the
sequence number of that very entry (hence that sequence number or
later), walking entries in ascending sequence order and stopping at the
first offence. `H` abstracts the SHA-256 hex digest and is assumed
collision-free (injective). -/
theorem c3_tamper_evident (H : String → String)
    (reqs : List (AppendReq × String)) (limit : Nat)
    (l1 l2 : List AuditEntry) (e e' : AuditEntry)
    (hinj : Function.Injective H)
    (hsplit : buildLedger H reqs = l1 ++ e :: l2)
    (hmut : MutatedOnce e e')
    (hlim : (l1 ++ e :: l2).length ≤ limit) :
    (∀ n, verifyAuditChain H (buildLedger H reqs) n =
      { valid := true, brokenAt := none
        checked := min n (buildLedger H reqs).length }) ∧
    verifyAuditChain H (l1 ++ e' :: l2) limit =
      { valid := false, brokenAt := some e.sequenceNumber
        checked := l1.length + 1 } := by
  constructor
  · intro n
    have hch := buildLedger_chain H reqs
    unfold verifyAuditChain
    have hs : List.Sorted (fun a b => a.sequenceNumber ≤ b.sequenceNumber)
        (buildLedger H reqs) := chainFrom_sorted hch
    rw [List.Sorted.insertionSort_eq hs]
    rw [verifyLoop_ok (chainFrom_take hch n)]
    simp [List.length_take]
  · obtain ⟨m1, m2, m3, m4, m5, m6, m7, m8, m9⟩ := hmut
    have hch0 : ChainFrom H "GENESIS" 1 (l1 ++ e :: l2) := by
      rw [← hsplit]
      exact buildLedger_chain H reqs
    obtain ⟨hc1, hc2⟩ := chainFrom_append_split hch0
    obtain ⟨he1, he2, -, -⟩ := hc2
    have hmapeq : (l1 ++ e' :: l2).map (fun x => x.sequenceNumber)
        = (l1 ++ e :: l2).map (fun x => x.sequenceNumber) := by
      simp [m7]
    have hsorted : List.Sorted (fun a b => a.sequenceNumber ≤ b.sequenceNumber)
        (l1 ++ e' :: l2) :=
      pairwise_seq_transfer hmapeq (chainFrom_sorted hch0)
    unfold verifyAuditChain
    rw [List.Sorted.insertionSort_eq hsorted]
    have hlen : (l1 ++ e' :: l2).length ≤ limit := by
      have : (l1 ++ e' :: l2).length = (l1 ++ e :: l2).length := by simp
      rw [this]
      exact hlim
    rw [List.take_of_length_le hlen]
    rw [verifyLoop_append hc1 (e' :: l2) 0]
    conv_lhs => rw [verifyLoop]
    rw [if_neg (by
      rw [m5, he1]
      simp)]
    have hbad : e'.entryHash ≠ computeHash H e' := by
      rw [m6, he2]
      intro hcon
      exact hashPayload_ne ⟨m1, m2, m3, m4, m5, m6, m7, m8, m9⟩
        (hinj hcon).symm
    rw [if_pos hbad]
    rw [m7]
    simp

/-- Witness for C3 at a two-entry ledger with entry 1's action mutated. -/
theorem c3_tamper_evident_witness :
    verifyAuditChain witnessHash (buildLedger witnessHash wReqs) 1000
      = { valid := true, brokenAt := none
          checked := min 1000 (buildLedger witnessHash wReqs).length } ∧
    verifyAuditChain witnessHash ([] ++ wMutEntry :: [wEntry2]) 1000
      = { valid := false, brokenAt := some wEntry1.sequenceNumber
          checked := List.length ([] : List AuditEntry) + 1 } := by
  have h := c3_tamper_evident witnessHash wReqs 1000 [] [wEntry2] wEntry1
    wMutEntry witnessHash_injective (by decide)
    ⟨rfl, rfl, rfl, rfl, rfl, rfl, rfl, rfl, Or.inl ⟨rfl, by decide⟩⟩
    (by decide)
  exact ⟨h.1 1000, h.2⟩

/-- C4: every append builds its entry with sequenceNumber = highest
stored sequence number + 1 (or 1 on an empty ledger), previousHash =
the entryHash of that highest-sequence entry (or the GENESIS constant),
and entryHash = the digest `H` — abstracting the 256-bit hex SHA-256 —
of the pipe-joined string previousHash | action | resource | resourceId
| user-or-SYSTEM | details-JSON | ip | ISO createdAt | sequenceNumber,
in exactly that order; and the successful append persists exactly that
entry. The hypothesis that stored hashes are non-empty (true of hex
digests) keeps the JS falsy fallback of computeHash inert. -/
theorem c4_append_assigns_chain_fields (H : String → String)
    (l : List AuditEntry) (r : AppendReq) (now : String)
    (hl : ∀ a ∈ l, a.entryHash ≠ "") :
    ((mkEntry H l r now).sequenceNumber =
      match lastEntry? l with
      | some a => a.sequenceNumber + 1
      | none => 1) ∧
    (lastEntry? l = none ↔ l = []) ∧
    (∀ a, lastEntry? l = some a →
      a ∈ l ∧ ∀ b ∈ l, b.sequenceNumber ≤ a.sequenceNumber) ∧
    ((mkEntry H l r now).previousHash =
      match lastEntry? l with
      | some a => a.entryHash
      | none => "GENESIS") ∧
    (mkEntry H l r now).entryHash =
      H (joinPipe [(mkEntry H l r now).previousHash, r.action, r.resource,
        r.resourceId.getD "", r.userId.getD "SYSTEM", r.details.getD "\x7b\x7d",
        r.ip, now, toString (mkEntry H l r now).sequenceNumber]) ∧
    appendAuditLog H l r now true = (some (mkEntry H l r now), l ++ [mkEntry H l r now]) := by
  refine ⟨rfl, lastEntry?_none_iff l, fun a ha => lastEntry?_spec ha, rfl, ?_, rfl⟩
  have hne : (mkEntry H l r now).previousHash ≠ "" := by
    show (match lastEntry? l with
      | some e => e.entryHash
      | none => "GENESIS") ≠ ""
    cases hle : lastEntry? l with
    | none => decide
    | some a =>
      have := (lastEntry?_spec hle).1
      exact hl a this
  show computeHash H (mkEntry H l r now) = _
  unfold computeHash hashPayload
  rw [if_neg hne]
  rfl

/-- Witness for C4 appending to a singleton ledger. -/
theorem c4_append_assigns_chain_fields_witness :
    (mkEntry witnessHash [wEntry1] wReq2 "t2").entryHash
      = witnessHash (joinPipe
          [(mkEntry witnessHash [wEntry1] wReq2 "t2").previousHash
          , wReq2.action, wReq2.resource, wReq2.resourceId.getD ""
          , wReq2.userId.getD "SYSTEM", wReq2.details.getD "\x7b\x7d"
          , wReq2.ip, "t2"
          , toString (mkEntry witnessHash [wEntry1] wReq2 "t2").sequenceNumber]) ∧
    appendAuditLog witnessHash [wEntry1] wReq2 "t2" true
      = (some (mkEntry witnessHash [wEntry1] wReq2 "t2"),
         [wEntry1] ++ [mkEntry witnessHash [wEntry1] wReq2 "t2"]) := by
  have h := c4_append_assigns_chain_fields witnessHash [wEntry1] wReq2 "t2"
    (by decide)
  exact ⟨h.2.2.2.2.1, h.2.2.2.2.2⟩

/-- C5: for a pending action governed by a policy with
selfApprovalAllowed = false, an approve call whose approver equals the
requestor always fails: the stored approvals list is unchanged and the
status is unchanged (or at most lazily marked expired), so the action is
never transitioned to approved by such a call, regardless of role or
quorum state. -/
theorem c5_separation_of_powers (H : String → String) (st : GovState)
    (actionId approverId : Nat) (comment ip : String) (now : Nat) (auditOk : Bool)
    (pa : PendingAction) (policy : Policy)
    (hfa : findAction st actionId = some pa)
    (hpol : getPolicy st pa.actionType = some policy)
    (hself : policy.selfApprovalAllowed = false)
    (hreq : pa.requestedBy = approverId) :
    (∃ msg, (approvePendingAction H st actionId approverId comment ip now auditOk).1
        = .error msg) ∧
    (∃ pa2, findAction
        (approvePendingAction H st actionId approverId comment ip now auditOk).2
        actionId = some pa2 ∧
      pa2.approvals = pa.approvals ∧
      (pa2.status = pa.status ∨ pa2.status = "expired")) := by
  unfold approvePendingAction
  rw [hfa]
  dsimp only
  by_cases hst : pa.status = "pending"
  · rw [if_neg (by simp [hst])]
    by_cases hexp : pa.isExpired now = true
    · rw [if_pos hexp]
      refine ⟨⟨_, rfl⟩, ⟨{ pa with status := "expired" }, ?_, rfl, Or.inr rfl⟩⟩
      exact findAction_updateAction hfa rfl
    · rw [if_neg hexp, hpol]
      dsimp only
      cases hap : findUser st approverId with
      | none =>
        exact ⟨⟨_, rfl⟩, ⟨pa, hfa, rfl, Or.inl rfl⟩⟩
      | some approver =>
        dsimp only
        by_cases hrole : policy.allowedApprovers.contains approver.role = true
        · rw [if_neg (by simpa using hrole)]
          have hcond : (!policy.selfApprovalAllowed && pa.requestedBy == approverId) = true := by
            simp [hself, hreq]
          rw [if_pos hcond]
          exact ⟨⟨_, rfl⟩, ⟨pa, hfa, rfl, Or.inl rfl⟩⟩
        · rw [if_pos (by simpa using hrole)]
          exact ⟨⟨_, rfl⟩, ⟨pa, hfa, rfl, Or.inl rfl⟩⟩
  · rw [if_pos hst]
    exact ⟨⟨_, rfl⟩, ⟨pa, hfa, rfl, Or.inl rfl⟩⟩

/-- Witness for C5: the requestor of a 2-approval action tries to approve it. -/
theorem c5_separation_of_powers_witness :
    (∃ msg, (approvePendingAction witnessHash wLockState 20 1 "" "ip" 500
        true).1 = .error msg) ∧
    (∃ pa2, findAction (approvePendingAction witnessHash wLockState 20 1 ""
        "ip" 500 true).2 20 = some pa2 ∧
      pa2.approvals = wDeleteAction.approvals ∧
      (pa2.status = wDeleteAction.status ∨ pa2.status = "expired")) :=
  c5_separation_of_powers witnessHash wLockState 20 1 "" "ip" 500 true
    wDeleteAction deleteDefaultPolicy (by decide) (by decide) rfl rfl

/-- C6 (amended): an approve against a pending action whose expiresAt
has passed marks it expired and fails with the has-expired error; and
once status = expired the action is terminal — approve, veto and cancel
all fail with the wrong-status error and leave the state unchanged.
The stronger statement that no veto or cancel ever succeeds after
expiresAt has passed is refuted by `c6_counterexample`: veto and cancel
do not consult expiresAt, so a past-expiry action still marked pending
can be vetoed or cancelled. -/
theorem c6_expiry_terminal (H : String → String) (st : GovState)
    (actionId approverId vetoerId cancelerId : Nat)
    (comment ip vreason : String) (now : Nat) (auditOk : Bool)
    (pa : PendingAction) (hfa : findAction st actionId = some pa) :
    -- (a) approve on a past-expiry pending action marks it expired and fails
    (pa.status = "pending" → pa.isExpired now = true →
      approvePendingAction H st actionId approverId comment ip now auditOk
        = (.error "This pending action has expired",
           updateAction st { pa with status := "expired" }) ∧
      findAction (approvePendingAction H st actionId approverId comment ip now
          auditOk).2 actionId = some { pa with status := "expired" }) ∧
    -- (b) once status = "expired" the action is terminal for every operation
    (pa.status = "expired" →
      approvePendingAction H st actionId approverId comment ip now auditOk
        = (.error ("Cannot approve action with status: " ++ pa.status), st) ∧
      vetoPendingAction H st actionId vetoerId vreason ip now auditOk
        = (.error ("Cannot veto action with status: " ++ pa.status), st) ∧
      cancelPendingAction H st actionId cancelerId ip now auditOk
        = (.error ("Cannot cancel action with status: " ++ pa.status), st)) := by
  constructor
  · intro hst hexp
    constructor
    · unfold approvePendingAction
      rw [hfa]
      dsimp only
      rw [if_neg (by simp [hst]), if_pos hexp]
    · unfold approvePendingAction
      rw [hfa]
      dsimp only
      rw [if_neg (by simp [hst]), if_pos hexp]
      exact findAction_updateAction hfa rfl
  · intro hst
    refine ⟨?_, ?_, ?_⟩
    · unfold approvePendingAction
      rw [hfa]
      dsimp only
      rw [if_pos (by simp [hst])]
    · unfold vetoPendingAction
      rw [hfa]
      dsimp only
      rw [if_pos (by simp [hst])]
    · unfold cancelPendingAction
      rw [hfa]
      dsimp only
      rw [if_pos (by simp [hst])]

/-- C6 counterexample: a pending action whose expiresAt (100) is long
past at now = 9999 is successfully vetoed — and, in a twin run,
cancelled — ending in status vetoed (resp. cancelled), not expired. -/
theorem c6_counterexample :
    wStaleAction.status = "pending" ∧
    wStaleAction.isExpired 9999 = true ∧
    (vetoPendingAction witnessHash wStaleState 10 2 "why" "ip" 9999 true).1
      = .ok { wStaleAction with
              status := "vetoed", vetoedBy := some 2
              vetoReason := some "why", vetoedAt := some 9999 } ∧
    (cancelPendingAction witnessHash wStaleState 10 1 "ip" 9999 true).1
      = .ok { wStaleAction with status := "cancelled" } := by
  refine ⟨rfl, rfl, ?_, ?_⟩ <;> rfl

/-- Witness for C6: one stale pending action, one already-expired action. -/
theorem c6_expiry_terminal_witness :
    (approvePendingAction witnessHash wStaleState 10 2 "" "ip" 9999 true
      = (.error "This pending action has expired",
         updateAction wStaleState { wStaleAction with status := "expired" })) ∧
    (approvePendingAction witnessHash wExpiredState 10 2 "" "ip" 9999 true
      = (.error ("Cannot approve action with status: " ++ wExpiredAction.status),
         wExpiredState)) ∧
    (vetoPendingAction witnessHash wExpiredState 10 2 "why" "ip" 9999 true
      = (.error ("Cannot veto action with status: " ++ wExpiredAction.status),
         wExpiredState)) ∧
    (cancelPendingAction witnessHash wExpiredState 10 1 "ip" 9999 true
      = (.error ("Cannot cancel action with status: " ++ wExpiredAction.status),
         wExpiredState)) := by
  have h1 := (c6_expiry_terminal witnessHash wStaleState 10 2 2 1 "" "ip" "why"
    9999 true wStaleAction (by decide)).1 rfl rfl
  have h2 := (c6_expiry_terminal witnessHash wExpiredState 10 2 2 1 "" "ip"
    "why" 9999 true wExpiredAction (by decide)).2 rfl
  exact ⟨h1.1, h2.1, h2.2.1, h2.2.2⟩

/-- C7 (amended): only the `requiredApprovals` threshold is snapshotted
at creation: two approve runs over policy stores that differ solely in
`requiredApprovals` produce the same result, the same actions, users
and ledger. Changes to the other policy fields (enabled, approver
roles, selfApprovalAllowed, executionDelaySeconds) are read live at
approve time and do affect in-flight actions, as `c7_counterexample`
shows. -/
theorem c7_snapshot_required_approvals (H : String → String) (st : GovState)
    (ps2 : List Policy) (actionId approverId : Nat) (comment ip : String)
    (now : Nat) (auditOk : Bool)
    (hrel : List.Forall₂ PolicyAgreesExceptReq st.policies ps2) :
    (approvePendingAction H st actionId approverId comment ip now auditOk).1 =
      (approvePendingAction H { st with policies := ps2 } actionId approverId
        comment ip now auditOk).1 ∧
    (approvePendingAction H st actionId approverId comment ip now auditOk).2.actions =
      (approvePendingAction H { st with policies := ps2 } actionId approverId
        comment ip now auditOk).2.actions ∧
    (approvePendingAction H st actionId approverId comment ip now auditOk).2.users =
      (approvePendingAction H { st with policies := ps2 } actionId approverId
        comment ip now auditOk).2.users ∧
    (approvePendingAction H st actionId approverId comment ip now auditOk).2.ledger =
      (approvePendingAction H { st with policies := ps2 } actionId approverId
        comment ip now auditOk).2.ledger := by
  unfold approvePendingAction
  have hfa2 : findAction { st with policies := ps2 } actionId
      = findAction st actionId := rfl
  rw [hfa2]
  cases hfa : findAction st actionId with
  | none => exact ⟨rfl, rfl, rfl, rfl⟩
  | some pa =>
    dsimp only
    by_cases hst : pa.status ≠ "pending"
    · rw [if_pos hst, if_pos hst]
      exact ⟨rfl, rfl, rfl, rfl⟩
    · rw [if_neg hst, if_neg hst]
      by_cases hexp : pa.isExpired now = true
      · rw [if_pos hexp, if_pos hexp]
        exact ⟨rfl, rfl, rfl, rfl⟩
      · rw [if_neg hexp, if_neg hexp]
        rcases getPolicy_agrees hrel pa.actionType with ⟨h1, h2⟩ | ⟨p, q, h1, h2, hpq⟩
        · rw [h1, h2]
          exact ⟨rfl, rfl, rfl, rfl⟩
        · rw [h1, h2]
          dsimp only
          have e4 := hpq.2.2.2.1
          have e5 := hpq.2.2.2.2.1
          have e6 := hpq.2.2.2.2.2.1
          rw [← e4, ← e5, ← e6]
          have hfu : findUser { st with policies := ps2 } approverId
              = findUser st approverId := rfl
          rw [hfu]
          have hsafe : checkAdminCountSafety { st with policies := ps2 }
                pa.actionPayload.targetUserId pa.actionType
              = checkAdminCountSafety st pa.actionPayload.targetUserId
                  pa.actionType := rfl
          rw [hsafe]
          cases findUser st approverId with
          | none => exact ⟨rfl, rfl, rfl, rfl⟩
          | some approver =>
            dsimp only
            repeat' split
            all_goals exact ⟨rfl, rfl, rfl, rfl⟩

/-- C7 counterexample: two stores identical except that the policy
executionDelaySecs was changed after creation (600 vs 900) give
different approve outcomes — scheduledExecutionAt 600500 vs 900500 —
refuting the statement that no policy change retroactively affects an
in-flight action. -/
theorem c7_counterexample :
    cexStateSlow = { cexStateFast with
      policies := [{ cexPolicyFast with executionDelaySecs := 900 }] } ∧
    (approvePendingAction witnessHash cexStateFast 10 1 "" "ip" 500 true).1
      ≠ (approvePendingAction witnessHash cexStateSlow 10 1 "" "ip" 500 true).1 ∧
    (∃ pa1, (approvePendingAction witnessHash cexStateFast 10 1 "" "ip" 500 true).1
        = .ok pa1 ∧ pa1.scheduledExecutionAt = some 600500) ∧
    (∃ pa2, (approvePendingAction witnessHash cexStateSlow 10 1 "" "ip" 500 true).1
        = .ok pa2 ∧ pa2.scheduledExecutionAt = some 900500) := by
  refine ⟨rfl, ?_, ⟨_, rfl, rfl⟩, ⟨_, rfl, rfl⟩⟩
  intro h
  have h3 := congrArg (fun r => match r with
    | Except.ok pa => PendingAction.scheduledExecutionAt pa
    | Except.error _ => none) h
  exact absurd h3 (by decide)

/-- Witness for C7: quorum threshold raised to 5 after creation does not
change the approve outcome of an in-flight action snapshotted at 1. -/
theorem c7_snapshot_required_approvals_witness :
    (approvePendingAction witnessHash cexStateFast 10 1 "" "ip" 500 true).1 =
      (approvePendingAction witnessHash wQuorumStrictState 10 1 "" "ip" 500
        true).1 ∧
    (approvePendingAction witnessHash cexStateFast 10 1 "" "ip" 500
        true).2.actions =
      (approvePendingAction witnessHash wQuorumStrictState 10 1 "" "ip" 500
        true).2.actions := by
  have h := c7_snapshot_required_approvals witnessHash cexStateFast
    [{ cexPolicyFast with requiredApprovals := 5 }] 10 1 "" "ip" 500 true
    (List.Forall₂.cons ⟨rfl, rfl, rfl, rfl, rfl, rfl, rfl, rfl, rfl⟩
      List.Forall₂.nil)
  exact ⟨h.1, h.2.1⟩

/-- C8: once the bootstrap lock document has bootstrapped = true it
stays true — any further bootstrap call returns 409 and leaves users,
identities, lock and policies untouched; a clean first call returns
201 and sets the lock, so two calls yield exactly one
bootstrapped-true lock and one local admin account; and a run that
crashed right after the identity-provider account was created
converges, on retry, to exactly the same end state as one clean run. -/
theorem c8_bootstrap_idempotent (H : String → String) (st : BootState)
    (email password name ip email2 password2 name2 ip2 : String)
    (newUid newLocalId now newUid2 newLocalId2 now2 : Nat)
    (auditOk auditOk2 : Bool) :
    -- (1) permanence: a set lock is never cleared, and any further call 409s
    (isSystemBootstrapped st = true →
      (bootstrapAdmin H st email password name ip newUid newLocalId now
          auditOk).1.status = 409 ∧
      (bootstrapAdmin H st email password name ip newUid newLocalId now
          auditOk).2.lock = st.lock ∧
      (bootstrapAdmin H st email password name ip newUid newLocalId now
          auditOk).2.users = st.users ∧
      (bootstrapAdmin H st email password name ip newUid newLocalId now
          auditOk).2.fbUsers = st.fbUsers ∧
      (bootstrapAdmin H st email password name ip newUid newLocalId now
          auditOk).2.policies = st.policies ∧
      isSystemBootstrapped (bootstrapAdmin H st email password name ip newUid
          newLocalId now auditOk).2 = true) ∧
    -- (2) a clean first call returns 201, sets the lock, and a second call
    -- (with any inputs) 409s without touching users, identities or policies
    (isSystemBootstrapped st = false → email ≠ "" → password ≠ "" → name ≠ "" →
      (bootstrapAdmin H st email password name ip newUid newLocalId now
          auditOk).1.status = 201 ∧
      isSystemBootstrapped (bootstrapAdmin H st email password name ip newUid
          newLocalId now auditOk).2 = true ∧
      (bootstrapAdmin H
          (bootstrapAdmin H st email password name ip newUid newLocalId now
            auditOk).2 email2 password2 name2 ip2 newUid2 newLocalId2 now2
          auditOk2).1.status = 409 ∧
      (bootstrapAdmin H
          (bootstrapAdmin H st email password name ip newUid newLocalId now
            auditOk).2 email2 password2 name2 ip2 newUid2 newLocalId2 now2
          auditOk2).2.lock =
        (bootstrapAdmin H st email password name ip newUid newLocalId now
          auditOk).2.lock ∧
      (bootstrapAdmin H
          (bootstrapAdmin H st email password name ip newUid newLocalId now
            auditOk).2 email2 password2 name2 ip2 newUid2 newLocalId2 now2
          auditOk2).2.users =
        (bootstrapAdmin H st email password name ip newUid newLocalId now
          auditOk).2.users ∧
      (bootstrapAdmin H
          (bootstrapAdmin H st email password name ip newUid newLocalId now
            auditOk).2 email2 password2 name2 ip2 newUid2 newLocalId2 now2
          auditOk2).2.fbUsers =
        (bootstrapAdmin H st email password name ip newUid newLocalId now
          auditOk).2.fbUsers) ∧
    -- (3) crash after identity creation, then retry ≡ one clean run
    (isSystemBootstrapped st = false → email ≠ "" → password ≠ "" → name ≠ "" →
      st.fbUsers.find? (fun u => u.email == email) = none →
      bootstrapAdmin H (bootstrapCrashAfterIdentity st email password name
          newUid) email password name ip newUid newLocalId now auditOk =
        bootstrapAdmin H st email password name ip newUid newLocalId now
          auditOk) := by
  refine ⟨?_, ?_, ?_⟩
  · intro hb
    obtain ⟨h1, h2, h3, h4, h5⟩ := @bootstrap_blocked H st email password
      name ip newUid newLocalId now auditOk hb
    refine ⟨h1, h2, h3, h4, h5, ?_⟩
    rw [isSystemBootstrapped, h2]
    rw [isSystemBootstrapped] at hb
    exact hb
  · intro hb he hp hn
    obtain ⟨h201, hlock⟩ := @bootstrap_success_lock H st email password name
      ip newUid newLocalId now auditOk hb he hp hn
    obtain ⟨g1, g2, g3, g4, _⟩ := @bootstrap_blocked H
      (bootstrapAdmin H st email password name ip newUid newLocalId now
        auditOk).2 email2 password2 name2 ip2 newUid2 newLocalId2 now2
      auditOk2 hlock
    exact ⟨h201, hlock, g1, g2, g3, g4⟩
  · intro hb he hp hn hfind
    have h1 : resolveFirebaseUser st.fbUsers email password name newUid =
        (({ uid := newUid, email := email, displayName := name, claimsRole := none }, true),
         st.fbUsers ++ [{ uid := newUid, email := email, displayName := name, claimsRole := none }]) := by
      unfold resolveFirebaseUser
      rw [hfind]
    have hcs : bootstrapCrashAfterIdentity st email password name newUid =
        { st with fbUsers := st.fbUsers ++
            [{ uid := newUid, email := email, displayName := name, claimsRole := none }] } := by
      unfold bootstrapCrashAfterIdentity
      rw [h1]
    have hfind2 : (st.fbUsers ++
        [({ uid := newUid, email := email, displayName := name, claimsRole := none } : FirebaseUser)]).find?
          (fun u => u.email == email) =
        some { uid := newUid, email := email, displayName := name, claimsRole := none } := by
      rw [List.find?_append, hfind]
      simp
    have h2 : resolveFirebaseUser (st.fbUsers ++
        [{ uid := newUid, email := email, displayName := name, claimsRole := none }]) email password name newUid =
        (({ uid := newUid, email := email, displayName := name, claimsRole := none }, false),
         st.fbUsers ++ [{ uid := newUid, email := email, displayName := name, claimsRole := none }]) := by
      unfold resolveFirebaseUser
      rw [hfind2]
    rw [hcs]
    unfold bootstrapAdmin
    have hb2 : isSystemBootstrapped { st with fbUsers := st.fbUsers ++
        [{ uid := newUid, email := email, displayName := name, claimsRole := none }] }
        = isSystemBootstrapped st := rfl
    rw [hb2]
    dsimp only
    rw [h1, h2]
    have hor : ¬ (email = "" ∨ password = "" ∨ name = "") := by
      push_neg
      exact ⟨he, hp, hn⟩
    rw [if_neg (by simp [hb]), if_neg hor, if_neg (by simp [hb])]
    rw [if_neg hor]

/-- Witness for C8 on concrete empty and already-bootstrapped stores. -/
theorem c8_bootstrap_idempotent_witness :
    (bootstrapAdmin witnessHash wBootedState "a" "b" "c" "ip" 9 9 9
        true).1.status = 409 ∧
    (bootstrapAdmin witnessHash wEmptyBoot "e@x" "pw" "nm" "ip" 100 200 1000
        true).1.status = 201 ∧
    bootstrapAdmin witnessHash (bootstrapCrashAfterIdentity wEmptyBoot "e@x"
        "pw" "nm" 100) "e@x" "pw" "nm" "ip" 100 200 1000 true
      = bootstrapAdmin witnessHash wEmptyBoot "e@x" "pw" "nm" "ip" 100 200 1000
          true := by
  refine ⟨?_, ?_, ?_⟩
  · exact ((c8_bootstrap_idempotent witnessHash wBootedState "a" "b" "c" "ip"
      "" "" "" "" 9 9 9 0 0 0 true true).1 rfl).1
  · exact ((c8_bootstrap_idempotent witnessHash wEmptyBoot "e@x" "pw" "nm" "ip"
      "" "" "" "" 100 200 1000 0 0 0 true true).2.1 rfl (by decide) (by decide)
      (by decide)).1
  · exact (c8_bootstrap_idempotent witnessHash wEmptyBoot "e@x" "pw" "nm" "ip"
      "" "" "" "" 100 200 1000 0 0 0 true true).2.2 rfl (by decide) (by decide)
      (by decide) rfl

/-- C9: appendAuditLog never raises to its caller — it returns either
the persisted entry or none with the ledger unchanged — and for every
governance operation (create, approve, veto, cancel, bootstrap,
recovery) the result and every non-ledger component of the state are
identical whether the audit store write succeeds or fails. -/
theorem c9_audit_never_blocks :
    (∀ (H : String → String) (l : List AuditEntry) (r : AppendReq)
        (now : String) (ok : Bool),
      appendAuditLog H l r now ok =
        if ok then (some (mkEntry H l r now), l ++ [mkEntry H l r now])
        else (none, l)) ∧
    (∀ (H : String → String) (st : GovState) (actionType : String)
        (requestorId : Nat) (payload : ActionPayload) (reason ip : String)
        (now newActionId : Nat) (b : Bool),
      (createPendingAction H st actionType requestorId payload reason ip now
          newActionId b).1 =
        (createPendingAction H st actionType requestorId payload reason ip now
          newActionId true).1 ∧
      (createPendingAction H st actionType requestorId payload reason ip now
          newActionId b).2.actions =
        (createPendingAction H st actionType requestorId payload reason ip now
          newActionId true).2.actions ∧
      (createPendingAction H st actionType requestorId payload reason ip now
          newActionId b).2.users =
        (createPendingAction H st actionType requestorId payload reason ip now
          newActionId true).2.users ∧
      (createPendingAction H st actionType requestorId payload reason ip now
          newActionId b).2.policies =
        (createPendingAction H st actionType requestorId payload reason ip now
          newActionId true).2.policies) ∧
    (∀ (H : String → String) (st : GovState) (actionId approverId : Nat)
        (comment ip : String) (now : Nat) (b : Bool),
      (approvePendingAction H st actionId approverId comment ip now b).1 =
        (approvePendingAction H st actionId approverId comment ip now true).1 ∧
      (approvePendingAction H st actionId approverId comment ip now b).2.actions =
        (approvePendingAction H st actionId approverId comment ip now true).2.actions ∧
      (approvePendingAction H st actionId approverId comment ip now b).2.users =
        (approvePendingAction H st actionId approverId comment ip now true).2.users ∧
      (approvePendingAction H st actionId approverId comment ip now b).2.policies =
        (approvePendingAction H st actionId approverId comment ip now true).2.policies) ∧
    (∀ (H : String → String) (st : GovState) (actionId vetoerId : Nat)
        (reason ip : String) (now : Nat) (b : Bool),
      (vetoPendingAction H st actionId vetoerId reason ip now b).1 =
        (vetoPendingAction H st actionId vetoerId reason ip now true).1 ∧
      (vetoPendingAction H st actionId vetoerId reason ip now b).2.actions =
        (vetoPendingAction H st actionId vetoerId reason ip now true).2.actions ∧
      (vetoPendingAction H st actionId vetoerId reason ip now b).2.users =
        (vetoPendingAction H st actionId vetoerId reason ip now true).2.users ∧
      (vetoPendingAction H st actionId vetoerId reason ip now b).2.policies =
        (vetoPendingAction H st actionId vetoerId reason ip now true).2.policies) ∧
    (∀ (H : String → String) (st : GovState) (actionId userId : Nat)
        (ip : String) (now : Nat) (b : Bool),
      (cancelPendingAction H st actionId userId ip now b).1 =
        (cancelPendingAction H st actionId userId ip now true).1 ∧
      (cancelPendingAction H st actionId userId ip now b).2.actions =
        (cancelPendingAction H st actionId userId ip now true).2.actions ∧
      (cancelPendingAction H st actionId userId ip now b).2.users =
        (cancelPendingAction H st actionId userId ip now true).2.users ∧
      (cancelPendingAction H st actionId userId ip now b).2.policies =
        (cancelPendingAction H st actionId userId ip now true).2.policies) ∧
    (∀ (H : String → String) (st : BootState) (email password name ip : String)
        (newUid newLocalId now : Nat) (b : Bool),
      (bootstrapAdmin H st email password name ip newUid newLocalId now b).1 =
        (bootstrapAdmin H st email password name ip newUid newLocalId now true).1 ∧
      (bootstrapAdmin H st email password name ip newUid newLocalId now b).2.users =
        (bootstrapAdmin H st email password name ip newUid newLocalId now true).2.users ∧
      (bootstrapAdmin H st email password name ip newUid newLocalId now b).2.fbUsers =
        (bootstrapAdmin H st email password name ip newUid newLocalId now true).2.fbUsers ∧
      (bootstrapAdmin H st email password name ip newUid newLocalId now b).2.lock =
        (bootstrapAdmin H st email password name ip newUid newLocalId now true).2.lock ∧
      (bootstrapAdmin H st email password name ip newUid newLocalId now b).2.policies =
        (bootstrapAdmin H st email password name ip newUid newLocalId now true).2.policies) ∧
    (∀ (H : String → String) (st : BootState) (tok : Option String)
        (recoveryToken email password name ip : String)
        (newUid newLocalId now : Nat) (b : Bool),
      (adminRecovery H st tok recoveryToken email password name ip newUid
          newLocalId now b).1 =
        (adminRecovery H st tok recoveryToken email password name ip newUid
          newLocalId now true).1 ∧
      (adminRecovery H st tok recoveryToken email password name ip newUid
          newLocalId now b).2.users =
        (adminRecovery H st tok recoveryToken email password name ip newUid
          newLocalId now true).2.users ∧
      (adminRecovery H st tok recoveryToken email password name ip newUid
          newLocalId now b).2.fbUsers =
        (adminRecovery H st tok recoveryToken email password name ip newUid
          newLocalId now true).2.fbUsers ∧
      (adminRecovery H st tok recoveryToken email password name ip newUid
          newLocalId now b).2.lock =
        (adminRecovery H st tok recoveryToken email password name ip newUid
          newLocalId now true).2.lock ∧
      (adminRecovery H st tok recoveryToken email password name ip newUid
          newLocalId now b).2.policies =
        (adminRecovery H st tok recoveryToken email password name ip newUid
          newLocalId now true).2.policies) := by
  refine ⟨?_, ?_, ?_, ?_, ?_, ?_, ?_⟩
  · intro H l r now ok
    cases ok <;> rfl
  · intro H st actionType requestorId payload reason ip now newActionId b
    cases b with
    | true => exact ⟨rfl, rfl, rfl, rfl⟩
    | false =>
      unfold createPendingAction
      repeat' split
      all_goals exact ⟨rfl, rfl, rfl, rfl⟩
  · intro H st actionId approverId comment ip now b
    cases b with
    | true => exact ⟨rfl, rfl, rfl, rfl⟩
    | false =>
      unfold approvePendingAction
      repeat' split
      all_goals exact ⟨rfl, rfl, rfl, rfl⟩
  · intro H st actionId vetoerId reason ip now b
    cases b with
    | true => exact ⟨rfl, rfl, rfl, rfl⟩
    | false =>
      unfold vetoPendingAction
      repeat' split
      all_goals exact ⟨rfl, rfl, rfl, rfl⟩
  · intro H st actionId userId ip now b
    cases b with
    | true => exact ⟨rfl, rfl, rfl, rfl⟩
    | false =>
      unfold cancelPendingAction
      repeat' split
      all_goals exact ⟨rfl, rfl, rfl, rfl⟩
  · intro H st email password name ip newUid newLocalId now b
    cases b with
    | true => exact ⟨rfl, rfl, rfl, rfl, rfl⟩
    | false =>
      unfold bootstrapAdmin
      repeat' split
      all_goals exact ⟨rfl, rfl, rfl, rfl, rfl⟩
  · intro H st tok recoveryToken email password name ip newUid newLocalId now b
    cases b with
    | true => exact ⟨rfl, rfl, rfl, rfl, rfl⟩
    | false =>
      unfold adminRecovery
      repeat' split
      all_goals exact ⟨rfl, rfl, rfl, rfl, rfl⟩

/-- C10: for a targetUserId that matches no account,
checkAdminCountSafety returns safe = true with wouldRemove = 0, and a
create or approve of a DELETE_ADMIN, DEMOTE_ADMIN or DEACTIVATE_ADMIN
action naming such a target passes the lockout gate and succeeds
(given the other guards), regardless of how many active admins
exist. -/
theorem c10_missing_target_safe (H : String → String) (st : GovState)
    (actionType : String) (requestorId : Nat) (payload : ActionPayload)
    (reason ip comment : String) (now newActionId actionId approverId : Nat)
    (auditOk : Bool) (tid : Nat) (act : String) :
    (findUser st tid = none →
      checkAdminCountSafety st tid act =
        { safe := true, currentCount := activeAdminCount st, wouldRemove := 0
          resultingCount := none }) ∧
    (∀ policy requestor,
      actionType ∈ adminAffecting →
      getPolicy st actionType = some policy →
      findUser st requestorId = some requestor →
      policy.allowedRequestors.contains requestor.role = true →
      findUser st payload.targetUserId = none →
      ∃ pa, (createPendingAction H st actionType requestorId payload reason ip now
          newActionId auditOk).1 = .ok pa ∧ pa.status = "pending") ∧
    (∀ pa policy approver,
      findAction st actionId = some pa →
      pa.status = "pending" →
      pa.isExpired now = false →
      getPolicy st pa.actionType = some policy →
      findUser st approverId = some approver →
      policy.allowedApprovers.contains approver.role = true →
      (!policy.selfApprovalAllowed && pa.requestedBy == approverId) = false →
      pa.hasUserApproved approverId = false →
      pa.actionType ∈ adminAffecting →
      findUser st pa.actionPayload.targetUserId = none →
      ∃ pa3, (approvePendingAction H st actionId approverId comment ip now
          auditOk).1 = .ok pa3) := by
  refine ⟨?_, ?_, ?_⟩
  · intro h
    exact checkSafety_none h
  · intro policy requestor hmem hpol hreq hperm htgt
    unfold createPendingAction
    rw [hpol]
    dsimp only
    rw [hreq]
    dsimp only
    rw [if_neg (by simpa using hperm)]
    have hsafe : (checkAdminCountSafety st payload.targetUserId actionType).safe = true := by
      rw [checkSafety_none htgt]
    rw [if_neg (by simp [hsafe])]
    exact ⟨_, rfl, rfl⟩
  · intro pa policy approver hfa hst hexp hpol hap hrole hself hdup hmem htgt
    unfold approvePendingAction
    rw [hfa]
    dsimp only
    rw [if_neg (by simp [hst])]
    rw [if_neg (by simp [hexp])]
    rw [hpol]
    dsimp only
    rw [hap]
    dsimp only
    rw [if_neg (by simpa using hrole)]
    rw [if_neg (by simp [hself])]
    rw [if_neg (by simp [hdup])]
    have hsafe : (checkAdminCountSafety st pa.actionPayload.targetUserId pa.actionType).safe = true := by
      rw [checkSafety_none htgt]
    rw [if_neg (by simp [hsafe])]
    exact ⟨_, rfl⟩

/-- Witness for C10: target id 77 matches no account. -/
theorem c10_missing_target_safe_witness :
    checkAdminCountSafety wLockState 77 "DELETE_ADMIN"
      = { safe := true, currentCount := activeAdminCount wLockState
          wouldRemove := 0, resultingCount := none } ∧
    (∃ pa, (createPendingAction witnessHash wLockState "DELETE_ADMIN" 1
        { targetUserId := 77 } "r" "ip" 500 50 true).1 = .ok pa ∧
      pa.status = "pending") := by
  have h := c10_missing_target_safe witnessHash wLockState "DELETE_ADMIN" 1
    { targetUserId := 77 } "r" "ip" "" 500 50 20 2 true 77 "DELETE_ADMIN"
  exact ⟨h.1 rfl, h.2.1 deleteDefaultPolicy wAdmin1 (by decide) (by decide)
    (by decide) (by decide) rfl⟩


end ConstructionPulse
